import Mathlib

/- Verification development for src/ShyMouse.js.

   The source file contains two revisions of the same engine class; the first
   revision is embedded in namespace V1, the second (after the separator
   comment in the source) in namespace V2.

   Modeling conventions used by the shallow embedding:
   * JS numbers are modeled as rationals.  Division is total rational division;
     in the source every divisor is either a positive constant or guarded
     (for example the "length || 1" pattern), and the theorems below add the
     positivity hypotheses wherever a configured divisor is involved.
   * Math.random() is an explicit stream of draws (rng : Nat -> Rat), consumed
     in exactly the order the source calls Math.random(), including draws that
     happen only when a short-circuit condition reaches them.
   * Transcendental Math functions (sqrt, log, log2, log10, sin, cos, atan2,
     fractional pow, PI) are oracle parameters collected in MathEnv; nothing
     in the embedding depends on their values except through these parameters.
   * Calls into the browser driver (element.evaluate, boundingBox, wheel,
     mouse.move, scroll reads, ...) are the interface boundary of the design:
     their results come from a PageO oracle indexed by a query counter, and
     their emitted effects are recorded in an event trace.  In-page DOM logic
     executed via evaluate is driver-side and is represented by the oracle
     answer for that call.
   * Timers: Date.now() reads a clock in the engine state; each resolved
     random delay advances the clock by the slept amount.  Unbounded wall
     clock polling loops take an explicit fuel parameter and the theorems
     quantify over it.
   * Logging (this.log, console.warn) and handle disposal are effect-free and
     are modeled as no-ops.  The pre and post click attribute snapshot used
     only for diagnostic logging is modeled as one opaque driver-supplied
     value since only its equality is ever observed.
-/

/-- A point in render-surface coordinates, as the source's plain x and y pairs. -/
structure Pt where
  x : ℚ
  y : ℚ
deriving DecidableEq, Repr

/-- Observable driver effects emitted by the engine. -/
inductive Ev where
  | move (x y : ℚ)
  | down
  | up
  | wheel (dx dy : ℚ)
  | cscroll (d : ℚ)
  | sleep (ms : ℚ)
deriving DecidableEq, Repr

/-- Viewport information as returned by the in-page evaluate of getViewport.
    The second revision only populates and reads the first four fields. -/
structure Viewport where
  width : ℚ
  height : ℚ
  scrollX : ℚ
  scrollY : ℚ
  documentWidth : ℚ
  documentHeight : ℚ
deriving DecidableEq, Repr

/-- Bounding box of the element, as returned by element.boundingBox(). -/
structure BBox where
  x : ℚ
  y : ℚ
  width : ℚ
  height : ℚ
deriving DecidableEq, Repr

/-- Result of a driver call that can return a value, return null, or throw. -/
inductive OrcRes (α : Type) where
  | ok (a : α)
  | nullR
  | exn
deriving DecidableEq, Repr

/-- Scroll-container description built by getScrollContainer (first revision). -/
structure CInfo where
  isWindow : Bool
  scrollTop : ℚ
  scrollLeft : ℚ
  scrollHeight : ℚ
  scrollWidth : ℚ
  clientHeight : ℚ
  clientWidth : ℚ
deriving DecidableEq, Repr

/-- Result of the in-page scroll computation for nested containers
    (the element.evaluate inside scrollToElement, first revision). -/
structure SInfo where
  currentScroll : ℚ
  targetScroll : ℚ
  maxScroll : ℚ
deriving DecidableEq, Repr

/-- Oracles for the transcendental Math functions used by the source. -/
structure MathEnv where
  sqrt : ℚ → ℚ
  log : ℚ → ℚ
  log2 : ℚ → ℚ
  log10 : ℚ → ℚ
  sin : ℚ → ℚ
  cos : ℚ → ℚ
  atan2 : ℚ → ℚ → ℚ
  powf : ℚ → ℚ → ℚ
  pi : ℚ

/-- Oracle answers for the driver calls, indexed by a per-engine query
    counter that advances on every driver interaction. -/
structure PageO where
  viewport : ℕ → OrcRes Viewport
  bbox : ℕ → OrcRes BBox
  clickable : ℕ → Bool
  container : ℕ → Option CInfo
  inContainer : ℕ → Bool
  scrollInfoQ : ℕ → Option SInfo
  scrollYq : ℕ → ℚ
  containerScroll : ℕ → ℚ
  hasAnimations : ℕ → Bool
  stableEval : ℕ → Bool
  moveOk : ℕ → Bool
  preSt : ℕ → Option ℤ

/-- The ambient world: math oracles, the random stream, and the driver oracle. -/
structure World where
  env : MathEnv
  rng : ℕ → ℚ
  page : PageO

/-- State and trace monad over a world: a computation consumes the engine
    state, returns a value and the new state, and records emitted events. -/
def M (σ α : Type) := World → σ → α × σ × List Ev

instance : Monad (M σ) where
  pure a := fun _ s => (a, s, [])
  bind m f := fun w s =>
    ((f (m w s).1 w (m w s).2.1).1,
     (f (m w s).1 w (m w s).2.1).2.1,
     (m w s).2.2 ++ (f (m w s).1 w (m w s).2.1).2.2)

/-- Same monad with exceptions, for the engine methods that can throw. -/
def MF (σ α : Type) := World → σ → Except String α × σ × List Ev

instance : Monad (MF σ) where
  pure a := fun _ s => (.ok a, s, [])
  bind m f := fun w s =>
    match m w s with
    | (.ok a, s1, t1) => ((f a w s1).1, (f a w s1).2.1, t1 ++ (f a w s1).2.2)
    | (.error e, s1, t1) => (.error e, s1, t1)

/-- Lift an exception-free computation. -/
def MF.ofM (m : M σ α) : MF σ α := fun w s => (.ok (m w s).1, (m w s).2.1, (m w s).2.2)

/-- Model of a JS throw statement. -/
def MF.fail (e : String) : MF σ α := fun _ s => (.error e, s, [])

/-- Model of a try/catch block whose catch clause only logs: on error the
    partial side effects remain and execution resumes with the default value. -/
def MF.tryLog (m : MF σ α) (d : α) : MF σ α := fun w s =>
  match m w s with
  | (.ok a, s1, t1) => (.ok a, s1, t1)
  | (.error _, s1, t1) => (.ok d, s1, t1)

/-- JS Math.round: round half toward positive infinity, as a rational. -/
def jsRound (q : ℚ) : ℚ := (⌊q + 1/2⌋ : ℤ)

/-- JS Math.floor as a rational. -/
def jsFloor (q : ℚ) : ℚ := (⌊q⌋ : ℤ)

/-- JS Math.ceil as a rational. -/
def jsCeil (q : ℚ) : ℚ := (⌈q⌉ : ℤ)

/-- Iteration count of a JS loop "for (let i = 1; i <= n; i++)" whose bound
    is a number. -/
def toLoopN (q : ℚ) : ℕ := (⌊q⌋).toNat

/-- Source clamp(value, min, max) = Math.max(min, Math.min(value, max)),
    shared verbatim by both revisions. -/
def clamp (value lo hi : ℚ) : ℚ := max lo (min value hi)

/-- Source calculateDistance, shared verbatim by both revisions; the square
    root goes through the math oracle. -/
def calculateDistance (env : MathEnv) (p1 p2 : Pt) : ℚ :=
  env.sqrt ((p2.x - p1.x) * (p2.x - p1.x) + (p2.y - p1.y) * (p2.y - p1.y))

/-- Source getBezierPoint, shared verbatim by both revisions (pure
    polynomial arithmetic, no Math oracle involved). -/
def getBezierPoint (t : ℚ) (p0 p1 p2 p3 : Pt) : Pt :=
  let omt := 1 - t
  let omt2 := omt * omt
  let omt3 := omt2 * omt
  let t2 := t * t
  let t3 := t2 * t
  { x := p0.x * omt3 + 3 * p1.x * omt2 * t + 3 * p2.x * omt * t2 + p3.x * t3,
    y := p0.y * omt3 + 3 * p1.y * omt2 * t + 3 * p2.y * omt * t2 + p3.y * t3 }

/-- Movement and click request options bag (MovementRequest); every field is
    optional in the source, with the consumer applying its default.  Both
    revisions read the same field names, so the record is shared. -/
inductive TPos where
  | top
  | bottom
  | center
deriving DecidableEq, Repr

structure Opts where
  numPoints : Option ℚ := none
  isApproach : Bool := false
  overshootProb : Option ℚ := none
  jitterStdDev : Option ℚ := none
  defaultTargetWidth : Option ℚ := none
  visibilityBuffer : Option ℚ := none
  targetPosition : Option TPos := none
  offset : Option ℚ := none
  scrollJitterStdDev : Option ℚ := none
  clickPadding : Option ℚ := none
  waitTimeout : Option ℚ := none
  stabilityTimeout : Option ℚ := none
  validateClick : Bool := true
deriving DecidableEq, Repr

namespace V1

/-- Value of the curveComplexity configuration string. -/
inductive Complexity where
  | low
  | med
  | high
deriving DecidableEq, Repr

/-- The this.config bag of the first revision (constructor lines 13-40). -/
structure Config where
  fatigueEnabled : Bool
  fatigueThreshold : ℚ
  actionCount : ℤ
  maxFatigue : ℚ
  fatigueMultiplier : ℚ
  attentionSpan : ℚ
  minAttentionSpan : ℚ
  baseReactionTime : ℚ
  reactionTimeVariance : ℚ
  curveComplexity : Complexity
  hesitationProbability : ℚ
  microCorrectionFrequency : ℚ
  targetDriftEnabled : Bool
  minPollingInterval : ℚ
  maxPollingInterval : ℚ
  typicalPollingInterval : ℚ
deriving DecidableEq, Repr

/-- Constructor defaults; r is the Math.random() drawn for attentionSpan. -/
def initConfig (r : ℚ) : Config :=
  { fatigueEnabled := true, fatigueThreshold := 20, actionCount := 0, maxFatigue := 100,
    fatigueMultiplier := 1, attentionSpan := 0.88 + r * 0.10, minAttentionSpan := 0.80,
    baseReactionTime := 200, reactionTimeVariance := 80, curveComplexity := .high,
    hesitationProbability := 0.08, microCorrectionFrequency := 0.15,
    targetDriftEnabled := true,
    minPollingInterval := 6.9, maxPollingInterval := 16.6, typicalPollingInterval := 10 }

/-- Mutable instance state of the first revision. -/
structure St where
  k : ℕ
  q : ℕ
  clock : ℚ
  lastPos : Option Pt
  lastMoveTime : ℚ
  history : List (Pt × ℚ)
  cachedViewport : Option Viewport
  viewportCacheTime : ℚ
  cfg : Config

/-- Freshly constructed engine state (constructor lines 2-10). -/
def initSt (r : ℚ) : St :=
  { k := 0, q := 0, clock := 0, lastPos := none, lastMoveTime := 0, history := [],
    cachedViewport := none, viewportCacheTime := 0, cfg := initConfig r }

/-- Consume one Math.random() draw. -/
def draw : M St ℚ := fun w s => (w.rng s.k, { s with k := s.k + 1 }, [])

/-- Perform one driver call and read its oracle answer. -/
def query {β : Type} (f : PageO → ℕ → β) : M St β :=
  fun w s => (f w.page s.q, { s with q := s.q + 1 }, [])

def getEnv : M St MathEnv := fun w s => (w.env, s, [])

def getS : M St St := fun _ s => (s, s, [])

def modifyS (f : St → St) : M St Unit := fun _ s => ((), f s, [])

def getCfg : M St Config := fun _ s => (s.cfg, s, [])

def setCfg (c : Config) : M St Unit := fun _ s => ((), { s with cfg := c }, [])

/-- Date.now(). -/
def timeNow : M St ℚ := fun _ s => (s.clock, s, [])

def emit (e : Ev) : M St Unit := fun _ s => ((), s, [e])

def passTime (d : ℚ) : M St Unit := fun _ s => ((), { s with clock := s.clock + d }, [])

/-- Source randomDelay (lines 1598-1602): micro variation draw, then the
    delay draw; sleeps Math.max(0, delay). -/
def randomDelay (lo hi : ℚ) : M St Unit := do
  let r1 ← draw
  let microVar := (r1 - 0.5) * 10
  let r2 ← draw
  let d := max 0 (lo + r2 * (hi - lo) + microVar)
  emit (.sleep d)
  passTime d

/-- Source randomGaussian (lines 1573-1578), Box-Muller via the math oracle. -/
def randomGaussian (mean stdDev : ℚ) : M St ℚ := do
  let env ← getEnv
  let r1 ← draw
  let u := 1 - r1
  let v ← draw
  let z := env.sqrt (-(2 : ℚ) * env.log u) * env.cos (2 * env.pi * v)
  pure (z * stdDev + mean)

/-- Source easeInOutCubic (lines 1561-1568) with its 0.018 random variance. -/
def easeInOutCubic (t0 : ℚ) : M St ℚ := do
  let r ← draw
  let t := clamp (t0 + (r - 0.5) * 0.018) 0 1
  pure (if t < 0.5 then 4 * t * t * t else 1 - (-2 * t + 2) ^ 3 / 2)

/-- Pure core of applyFatigue (lines 1636-1657): returns the adjusted value
    and the updated config (the function mutates actionCount, attentionSpan
    and fatigueMultiplier). -/
def applyFatigueP (c : Config) (baseValue : ℚ) : ℚ × Config :=
  if !c.fatigueEnabled then (baseValue, c)
  else
    let c1 :=
      if (c.actionCount : ℚ) > c.maxFatigue then
        { c with
          actionCount := ⌊c.fatigueThreshold * 0.8⌋
          attentionSpan := min 0.96 (c.attentionSpan + 0.08)
          fatigueMultiplier := 1 }
      else c
    if (c1.actionCount : ℚ) > c1.fatigueThreshold then
      let fatigueLevel := ((c1.actionCount : ℚ) - c1.fatigueThreshold) / c1.fatigueThreshold
      (jsRound (baseValue * min (1 + fatigueLevel * 0.018) 1.45),
       { c1 with fatigueMultiplier := 1 + fatigueLevel * 0.4 })
    else (baseValue, c1)

/-- Source applyFatigue as a state action. -/
def applyFatigue (baseValue : ℚ) : M St ℚ := fun _ s =>
  ((applyFatigueP s.cfg baseValue).1, { s with cfg := (applyFatigueP s.cfg baseValue).2 }, [])

/-- Pure core of updateActionCount (lines 1662-1677); r is the recovery
    draw, consumed only when the incremented counter is a multiple of 45. -/
def updateActionCountP (c : Config) (r : ℚ) : Config :=
  let c1 := { c with actionCount := c.actionCount + 1 }
  let c2 :=
    if c1.actionCount % 45 = 0 then
      { c1 with
        actionCount := max 0 (c1.actionCount - ⌊(15 : ℚ) + r * 10⌋)
        attentionSpan := min 0.96 (c1.attentionSpan + 0.04)
        fatigueMultiplier := max 1 (c1.fatigueMultiplier * 0.85) }
    else c1
  { c2 with attentionSpan := max c2.minAttentionSpan (c2.attentionSpan - 0.0008) }

/-- Source updateActionCount as a state action. -/
def updateActionCount : M St Unit := fun w s =>
  ((), { s with
         k := if (s.cfg.actionCount + 1) % 45 = 0 then s.k + 1 else s.k
         cfg := updateActionCountP s.cfg (w.rng s.k) },
   [])

/-- Pure core of reset (lines 1723-1731); r is the attentionSpan draw. -/
def resetP (c : Config) (r : ℚ) : Config :=
  { c with
    actionCount := 0
    attentionSpan := 0.88 + r * 0.10
    fatigueMultiplier := 1 }

/-- Source reset as a state action, including the viewport cache
    invalidation. -/
def reset : M St Unit := fun w s =>
  ((), { s with
         k := s.k + 1
         cfg := resetP s.cfg (w.rng s.k)
         history := []
         lastPos := none
         cachedViewport := none
         viewportCacheTime := 0 },
   [])

/-- Source addToHistory (lines 1682-1687); entries carry Date.now(). -/
def addToHistory (p : Pt) : M St Unit := do
  let t ← timeNow
  modifyS fun s =>
    let h := s.history ++ [(p, t)]
    { s with history := if h.length > 50 then h.tail else h }

/-- Fallback viewport of getViewport (lines 142-150). -/
def fallbackViewport : Viewport := ⟨1920, 1080, 0, 0, 1920, 1080⟩

/-- Retry loop of getViewport; the argument counts the attempts left
    (retries = 2, so three attempts). -/
def getViewportLoop : ℕ → ℚ → M St Viewport
  | 0, nowT => do
      modifyS fun s => { s with
                         cachedViewport := some fallbackViewport
                         viewportCacheTime := nowT - (2000 - 500) }
      pure fallbackViewport
  | n+1, nowT => do
      let r ← query (fun p => p.viewport)
      match r with
      | .ok v => do
          modifyS fun s => { s with cachedViewport := some v, viewportCacheTime := nowT }
          pure v
      | .nullR => do
          if n > 0 then randomDelay 50 100 else pure ()
          getViewportLoop n nowT
      | .exn => do
          if n > 0 then randomDelay 100 200 else pure ()
          getViewportLoop n nowT

/-- Source getViewport (lines 87-156) with its 2000 ms cache. -/
def getViewport : M St Viewport := do
  let nowT ← timeNow
  let s ← getS
  match s.cachedViewport with
  | some v => if nowT - s.viewportCacheTime < 2000 then pure v else getViewportLoop 3 nowT
  | none => getViewportLoop 3 nowT

/-- Source initializePosition (lines 1623-1631): a randomized interior
    point, with the 1.3 power through the math oracle. -/
def initPosition (vp : Viewport) : M St Unit := do
  let env ← getEnv
  let r1 ← draw
  let x := 120 + env.powf r1 1.3 * (vp.width - 2 * 120)
  let r2 ← draw
  let y := 120 + r2 * (vp.height - 2 * 120)
  let t ← timeNow
  modifyS fun s => { s with lastPos := some ⟨x, y⟩, lastMoveTime := t }

/-- Source humanReactionDelay (lines 1583-1593). -/
def humanReactionDelay : M St Unit := do
  let c ← getCfg
  let attentionFactor := 1 + (1 - c.attentionSpan) * 0.6
  let g ← randomGaussian (c.baseReactionTime * attentionFactor * c.fatigueMultiplier)
      c.reactionTimeVariance
  let reactionTime := max 85 g
  randomDelay (reactionTime * 0.75) (reactionTime * 1.25)

end V1

namespace V1

/-- Cubic Bezier control points as produced by the control-point builders. -/
structure Ctrl where
  p0 : Pt
  p1 : Pt
  p2 : Pt
  p3 : Pt
deriving DecidableEq, Repr

/-- Trajectory result of calculateHumanBezierPoints. -/
structure TrajResult where
  points : List Pt
  finalPos : Pt
  targetDrift : Option Pt
deriving DecidableEq, Repr

/-- Result of handleRealisticOvershoot. -/
structure OvResult where
  points : List Pt
  finalPos : Pt
deriving DecidableEq, Repr

/-- The clamp applied to every generated sample in the first revision
    (lines 1326-1327 and 1512-1513): [0, width-1] x [0, height-1]. -/
def clampPt (vp : Viewport) (p : Pt) : Pt :=
  ⟨clamp p.x 0 (vp.width - 1), clamp p.y 0 (vp.height - 1)⟩

/-- Source calculateRealisticControlPoints (lines 1346-1382). -/
def calculateRealisticControlPoints (startX startY targetX targetY D : ℚ)
    (opts : Opts) : M St Ctrl := do
  let env ← getEnv
  let c ← getCfg
  let dx := targetX - startX
  let dy := targetY - startY
  let r1 ← draw
  let baseDeviation := D * (0.10 + r1 * 0.32)
  let deviation := if opts.isApproach then baseDeviation * 0.35 else baseDeviation
  let len0 := env.sqrt (dx * dx + dy * dy)
  let length := if len0 = 0 then 1 else len0
  let perpX := -dy / length
  let perpY := dx / length
  let r2 ← draw
  let directionBias : ℚ := if r2 < 0.65 then 1 else -1
  let r3 ← draw
  let c1FactorBase := 0.18 + r3 * 0.24
  let r4 ← draw
  let c2FactorBase := 0.54 + r4 * 0.28
  let r5 ← draw
  let asymmetry := (r5 - 0.5) * 0.22
  let c1Factor := clamp (c1FactorBase + asymmetry) 0.15 0.48
  let c2Factor := clamp (c2FactorBase - asymmetry) 0.50 0.88
  let r6 ← draw
  let c1Deviation := deviation * (0.5 + r6 * 0.6)
  let r7 ← draw
  let c2Deviation := deviation * (0.4 + r7 * 0.7)
  let fatigueImpact := c.fatigueMultiplier
  let c1x := startX + dx * c1Factor + directionBias * c1Deviation * perpX * fatigueImpact
  let c1y := startY + dy * c1Factor + directionBias * c1Deviation * perpY * fatigueImpact
  let c2x := startX + dx * c2Factor + directionBias * c2Deviation * perpX * fatigueImpact
  let c2y := startY + dy * c2Factor + directionBias * c2Deviation * perpY * fatigueImpact
  pure ⟨⟨startX, startY⟩, ⟨c1x, c1y⟩, ⟨c2x, c2y⟩, ⟨targetX, targetY⟩⟩

/-- Source multiLayerEasing (lines 1387-1412): cubic ease base, micro
    variation, tremor, attention lapses, distance-based hesitation. -/
def multiLayerEasing (t distance : ℚ) : M St ℚ := do
  let env ← getEnv
  let c ← getCfg
  let eased0 := if t < 0.5 then 4 * t * t * t else 1 - (-2 * t + 2) ^ 3 / 2
  let r1 ← draw
  let eased1 := eased0 + (r1 - 0.5) * 0.02
  let r2 ← draw
  let eased2 := eased1 + env.sin (t * env.pi * 8 + r2) * 0.008
  let eased3 ←
    if c.attentionSpan < 0.92 then do
      let r3 ← draw
      if r3 < 0.05 then do
        let r4 ← draw
        pure (eased2 + (r4 - 0.5) * 0.03)
      else pure eased2
    else pure eased2
  let eased4 ←
    if distance > 500 ∧ 0.35 < t ∧ t < 0.65 then do
      let r5 ← draw
      if r5 < 0.04 then pure (eased3 * 0.92) else pure eased3
    else pure eased3
  pure (clamp eased4 0 1)

/-- Micro-correction perturbation of the point loop (lines 1279-1287). -/
def microCorrectionStep (env : MathEnv) (c : Config) (linearT : ℚ) (p0 : Pt)
    (r1 : ℚ) : M St Pt :=
  if r1 < c.microCorrectionFrequency ∧ 0.2 < linearT ∧ linearT < 0.9 then do
    let ra ← draw
    let correctionAngle := ra * env.pi * 2
    let g ← randomGaussian 0 (4 * c.fatigueMultiplier)
    pure (⟨p0.x + env.cos correctionAngle * g, p0.y + env.sin correctionAngle * g⟩ : Pt)
  else pure p0

/-- Attention-lapse targeting error of the point loop (lines 1297-1305). -/
def attentionErrorStep (c : Config) (p2 : Pt) : M St Pt :=
  if c.attentionSpan < 0.95 then do
    let r2 ← draw
    if r2 > c.attentionSpan then do
      let errorMagnitude := (1 - c.attentionSpan) * 18 * c.fatigueMultiplier
      let ex ← randomGaussian 0 (errorMagnitude * 0.25)
      let ey ← randomGaussian 0 (errorMagnitude * 0.25)
      pure (⟨p2.x + ex, p2.y + ey⟩ : Pt)
    else pure p2
  else pure p2

/-- Mid-path sub-movement perturbation of the point loop (lines 1307-1313). -/
def subMovementStep (c : Config) (linearT : ℚ) (p3 : Pt) : M St Pt :=
  if 0.3 < linearT ∧ linearT < 0.85 then do
    let r3 ← draw
    if r3 < 0.12 then do
      let subMovement ← randomGaussian 0 (2.5 * c.fatigueMultiplier)
      pure (⟨p3.x + subMovement, p3.y + subMovement⟩ : Pt)
    else pure p3
  else pure p3

/-- Angular-velocity variation of the point loop (lines 1315-1323). -/
def angularVariationStep (env : MathEnv) (i : ℕ) (prevPt : Option Pt)
    (p4 : Pt) : M St Pt :=
  if i > 1 then do
    let r4 ← draw
    if r4 < 0.2 then
      match prevPt with
      | some prev => do
        let angle := env.atan2 (p4.y - prev.y) (p4.x - prev.x)
        let angleVariation ← randomGaussian 0 0.08
        let dist := calculateDistance env prev p4
        pure (⟨prev.x + env.cos (angle + angleVariation) * dist,
               prev.y + env.sin (angle + angleVariation) * dist⟩ : Pt)
      | none => pure p4
    else pure p4
  else pure p4

/-- One iteration of the point loop of calculateHumanBezierPoints
    (lines 1272-1324) before the final clamp. -/
def humanPointStepRaw (numPoints D jitterStdDev : ℚ) (ctrl : Ctrl) (i : ℕ)
    (prevPt : Option Pt) : M St Pt := do
  let env ← getEnv
  let c ← getCfg
  let linearT := (i : ℚ) / numPoints
  let easedT ← multiLayerEasing linearT D
  let p0 := getBezierPoint easedT ctrl.p0 ctrl.p1 ctrl.p2 ctrl.p3
  let r1 ← draw
  let p1 ← microCorrectionStep env c linearT p0 r1
  let progressFactor := 1 - easedT
  let distanceToEnd := progressFactor * D
  let adaptiveJitter := jitterStdDev * min 1.5 (distanceToEnd / 70)
  let gx ← randomGaussian 0 adaptiveJitter
  let gy ← randomGaussian 0 adaptiveJitter
  let p2 : Pt := ⟨p1.x + gx, p1.y + gy⟩
  let p3 ← attentionErrorStep c p2
  let p4 ← subMovementStep c linearT p3
  let p5 ← angularVariationStep env i prevPt p4
  pure p5

/-- One full iteration: the raw point followed by the mandatory clamp and
    push (lines 1326-1329). -/
def humanPointStep (vp : Viewport) (numPoints D jitterStdDev : ℚ) (ctrl : Ctrl)
    (i : ℕ) (prevPt : Option Pt) : M St Pt := do
  let p ← humanPointStepRaw numPoints D jitterStdDev ctrl i prevPt
  pure (clampPt vp p)

/-- The point loop of calculateHumanBezierPoints; the previous pushed point
    feeds the angular-velocity variation of the next iteration. -/
def humanPointsLoop (vp : Viewport) (numPoints D jitterStdDev : ℚ) (ctrl : Ctrl) :
    ℕ → ℕ → List Pt → M St (List Pt)
  | _, 0, acc => pure acc
  | i, n + 1, acc => do
    let p ← humanPointStep vp numPoints D jitterStdDev ctrl i acc.getLast?
    humanPointsLoop vp numPoints D jitterStdDev ctrl (i + 1) n (acc ++ [p])

/-- The point loop of generateRealisticCorrectionPath (lines 1503-1516). -/
def correctionLoop (vp : Viewport) (correctionD correctionNumPoints jitterStdDev : ℚ)
    (ctrl : Ctrl) : ℕ → ℕ → List Pt → M St (List Pt)
  | _, 0, acc => pure acc
  | i, n + 1, acc => do
    let linearT := (i : ℚ) / correctionNumPoints
    let easedT ← multiLayerEasing linearT correctionD
    let p := getBezierPoint easedT ctrl.p0 ctrl.p1 ctrl.p2 ctrl.p3
    let gx ← randomGaussian 0 jitterStdDev
    let gy ← randomGaussian 0 jitterStdDev
    let p2 := clampPt vp ⟨p.x + gx, p.y + gy⟩
    correctionLoop vp correctionD correctionNumPoints jitterStdDev ctrl (i + 1) n (acc ++ [p2])

/-- Source generateRealisticCorrectionPath (lines 1472-1519). -/
def generateRealisticCorrectionPath (overshootX overshootY targetX targetY : ℚ)
    (vp : Viewport) (opts : Opts) : M St (List Pt) := do
  let env ← getEnv
  let c ← getCfg
  let correctionD := calculateDistance env ⟨overshootX, overshootY⟩ ⟨targetX, targetY⟩
  let correctionNumPoints := max 8 (jsRound (correctionD / 10))
  let baseJitter := opts.jitterStdDev.getD 1.5
  let jitterStdDev := baseJitter * 0.6 * c.fatigueMultiplier
  let dx := targetX - overshootX
  let dy := targetY - overshootY
  let len0 := env.sqrt (dx * dx + dy * dy)
  let length := if len0 = 0 then 1 else len0
  let r1 ← draw
  let correctionDeviation := correctionD * (0.03 + r1 * 0.09)
  let perpX := -dy / length
  let perpY := dx / length
  let r2 ← draw
  let correctionSign : ℚ := if r2 < 0.5 then -1 else 1
  let r3 ← draw
  let c1x := overshootX + dx * 0.32 + correctionSign * correctionDeviation * perpX * r3
  let r4 ← draw
  let c1y := overshootY + dy * 0.32 + correctionSign * correctionDeviation * perpY * r4
  let r5 ← draw
  let c2x := overshootX + dx * 0.75 + correctionSign * correctionDeviation * perpX * r5
  let r6 ← draw
  let c2y := overshootY + dy * 0.75 + correctionSign * correctionDeviation * perpY * r6
  let ctrl : Ctrl := ⟨⟨overshootX, overshootY⟩, ⟨c1x, c1y⟩, ⟨c2x, c2y⟩, ⟨targetX, targetY⟩⟩
  correctionLoop vp correctionD correctionNumPoints jitterStdDev ctrl 1
    (toLoopN correctionNumPoints) []

/-- Source handleRealisticOvershoot (lines 1417-1467), parameterized by the
    trajectory generator used for the overshoot segment; the inner call
    passes overshootProb 0. -/
def handleRealisticOvershootGo
    (inner : ℚ → ℚ → ℚ → ℚ → Option BBox → Viewport → Opts → M St TrajResult)
    (startX startY targetX targetY : ℚ)
    (box : Option BBox) (vp : Viewport) (points : List Pt) (opts : Opts)
    (D W : ℚ) : M St OvResult := do
  let env ← getEnv
  let c ← getCfg
  let adjustedOvershootProb := opts.overshootProb.getD 0.16 * c.fatigueMultiplier
  let isRandomTarget := box.isNone
  if !isRandomTarget ∧ !opts.isApproach ∧ D > 120 then do
    let r ← draw
    if r < adjustedOvershootProb ∧ c.attentionSpan < 0.92 then do
      let dx := targetX - startX
      let dy := targetY - startY
      let len0 := env.sqrt (dx * dx + dy * dy)
      let length := if len0 = 0 then 1 else len0
      let dirX := dx / length
      let dirY := dy / length
      let rf ← draw
      let overshootFactor := (0.08 + rf * 0.20) * c.fatigueMultiplier
      let overshootDist0 := overshootFactor * W
      let oX0 := targetX + dirX * overshootDist0
      let oY0 := targetY + dirY * overshootDist0
      let margin : ℚ := 20
      let overshootDist :=
        if oX0 < margin ∨ oX0 ≥ vp.width - margin ∨ oY0 < margin ∨ oY0 ≥ vp.height - margin
        then overshootDist0 * 0.5 else overshootDist0
      let oX1 := targetX + dirX * overshootDist
      let oY1 := targetY + dirY * overshootDist
      let overshootX := clamp oX1 margin (vp.width - margin)
      let overshootY := clamp oY1 margin (vp.height - margin)
      let overshootResult ← inner startX startY overshootX
        overshootY box vp { opts with overshootProb := some 0 }
      let correctionPoints ← generateRealisticCorrectionPath overshootX overshootY
        targetX targetY vp opts
      pure { points := overshootResult.points ++ correctionPoints,
             finalPos := ⟨targetX, targetY⟩ }
    else pure { points := points, finalPos := ⟨targetX, targetY⟩ }
  else pure { points := points, finalPos := ⟨targetX, targetY⟩ }

/-- Source calculateHumanBezierPoints (lines 1233-1341).  The fuel bounds
    the overshoot recursion; the theorems below show any fuel of at least
    two yields the same result, which is the depth-one recursion bound. -/
def calculateHumanBezierPoints (fuel : ℕ) (startX startY targetX targetY : ℚ)
    (box : Option BBox) (vp : Viewport) (opts : Opts) : M St TrajResult := do
  let env ← getEnv
  let D := calculateDistance env ⟨startX, startY⟩ ⟨targetX, targetY⟩
  let W := match box with
    | some b => min b.width b.height
    | none => opts.defaultTargetWidth.getD 100
  let ID := env.log2 (D / W + 1)
  let c0 ← getCfg
  let complexityMultiplier : ℚ := match c0.curveComplexity with
    | .low => 0.7
    | .high => 1.3
    | .med => 1.0
  let baseNumPoints0 := max 15 (jsRound (12 * ID * complexityMultiplier))
  let baseNumPoints ← applyFatigue baseNumPoints0
  let numPoints := opts.numPoints.getD baseNumPoints
  let primaryControls ← calculateRealisticControlPoints startX startY targetX targetY D opts
  let c1 ← getCfg
  let targetDrift ←
    if c1.targetDriftEnabled ∧ !opts.isApproach ∧ D > 100 then do
      let m ← randomGaussian 0 (3 * c1.fatigueMultiplier)
      pure (some (⟨m, m⟩ : Pt))
    else pure none
  let c2 ← getCfg
  let jitterStdDev := opts.jitterStdDev.getD 1.5 * c2.fatigueMultiplier
  let points ← humanPointsLoop vp numPoints D jitterStdDev primaryControls 1
    (toLoopN numPoints) []
  match fuel with
  | 0 => pure { points := points, finalPos := ⟨targetX, targetY⟩, targetDrift := targetDrift }
  | fuel' + 1 => do
    let r ← handleRealisticOvershootGo (calculateHumanBezierPoints fuel')
      startX startY targetX targetY box vp points opts D W
    pure { points := r.points, finalPos := r.finalPos, targetDrift := targetDrift }

/-- Source handleRealisticOvershoot at a given remaining recursion fuel. -/
def handleRealisticOvershoot (fuel : ℕ) (startX startY targetX targetY : ℚ)
    (box : Option BBox) (vp : Viewport) (points : List Pt) (opts : Opts)
    (D W : ℚ) : M St OvResult :=
  handleRealisticOvershootGo (calculateHumanBezierPoints fuel)
    startX startY targetX targetY box vp points opts D W

/-- Source calculateRealisticPollingDelay (lines 1198-1228). -/
def calculateRealisticPollingDelay (phase : ℚ) : M St ℚ := do
  let c ← getCfg
  let random ← draw
  let baseDelay0 ←
    if random < 0.7 then do
      let r ← draw
      pure (c.typicalPollingInterval + (r - 0.5) * 4)
    else if random < 0.85 then do
      let r ← draw
      pure (c.minPollingInterval + r * 2)
    else do
      let r ← draw
      pure ((12.5 : ℚ) + r * 4)
  let baseDelay1 :=
    if 0.3 < phase ∧ phase < 0.7 then baseDelay0 * 0.9
    else if phase > 0.85 then baseDelay0 * 1.2
    else baseDelay0
  let r2 ← draw
  let baseDelay2 := baseDelay1 + (r2 - 0.5) * 1
  pure (clamp baseDelay2 c.minPollingInterval c.maxPollingInterval)

/-- One iteration of the execution loop of moveToPosition (lines 1153-1188):
    target drift blending, clamp, the driver move, and the polling and
    hesitation delays.  A failed driver move skips the rest (continue). -/
def movePointsStep (vp : Viewport) (len : ℕ) (targetDrift : Option Pt) (i : ℕ)
    (p : Pt) : M St Unit := do
  let pd ←
    match targetDrift with
    | some d =>
      if (i : ℚ) > (len : ℚ) * 0.5 then
        let driftFactor := ((i : ℚ) - (len : ℚ) * 0.5) / ((len : ℚ) * 0.5)
        pure (⟨p.x + d.x * driftFactor, p.y + d.y * driftFactor⟩ : Pt)
      else pure p
    | none => pure p
  let pc := clampPt vp pd
  let ok ← query (fun pg => pg.moveOk)
  if ok then do
    emit (.move pc.x pc.y)
    let c ← getCfg
    let phase := (i : ℚ) / (len : ℚ)
    let pollingDelay0 ← calculateRealisticPollingDelay phase
    let pollingDelay := pollingDelay0 * c.fatigueMultiplier
    randomDelay pollingDelay (pollingDelay + 2)
    let r ← draw
    if r < c.hesitationProbability ∧ 0.2 < phase ∧ phase < 0.8 then do
      let g ← randomGaussian 80 40
      let hesitationDuration := g * c.fatigueMultiplier
      randomDelay (max 30 hesitationDuration) (hesitationDuration + 50)
    else pure ()
  else pure ()

/-- The execution loop of moveToPosition over the generated points. -/
def movePointsLoop (vp : Viewport) (len : ℕ) (targetDrift : Option Pt) :
    ℕ → List Pt → M St Unit
  | _, [] => pure ()
  | i, p :: rest => do
    movePointsStep vp len targetDrift i p
    movePointsLoop vp len targetDrift (i + 1) rest

/-- Source moveToPosition (lines 1132-1193).  The getD fallback for lastPos
    is unreachable because initPosition always sets it first. -/
def moveToPosition (fuel : ℕ) (targetX0 targetY0 : ℚ) (opts : Opts) : M St Unit := do
  let vp ← getViewport
  let s ← getS
  if s.lastPos = none then initPosition vp else pure ()
  let targetX := clamp targetX0 0 (vp.width - 1)
  let targetY := clamp targetY0 0 (vp.height - 1)
  let s2 ← getS
  let lp := s2.lastPos.getD ⟨0, 0⟩
  let r ← calculateHumanBezierPoints fuel lp.x lp.y targetX targetY none vp opts
  movePointsLoop vp r.points.length r.targetDrift 0 r.points
  let t ← timeNow
  modifyS fun st => { st with lastPos := some ⟨targetX, targetY⟩, lastMoveTime := t }
  addToHistory ⟨targetX, targetY⟩

/-- Source microMouseAdjustment (lines 1524-1540). -/
def microMouseAdjustment : M St Unit := do
  let s ← getS
  match s.lastPos with
  | none => pure ()
  | some lp => do
    let c ← getCfg
    let gx ← randomGaussian 0 (2.5 * c.fatigueMultiplier)
    let gy ← randomGaussian 0 (2.5 * c.fatigueMultiplier)
    let microX := lp.x + gx
    let microY := lp.y + gy
    let vp ← getViewport
    let ok ← query (fun p => p.moveOk)
    if ok then
      emit (.move (clamp microX 0 (vp.width - 1)) (clamp microY 0 (vp.height - 1)))
    else pure ()

end V1

namespace V1

/-- Source getCurrentScrollY (lines 572-584); the in-page read and its
    catch-to-zero fallback are folded into the driver oracle value. -/
def getCurrentScrollY : M St ℚ := query (fun p => p.scrollYq)

/-- Source isElementClickable (lines 280-357): one element.evaluate driver
    call whose in-page nine-point sampling is driver-side; the oracle gives
    its boolean result, with the catch branch folded into false. -/
def isElementClickable : M St Bool := query (fun p => p.clickable)

/-- Source getElementBoundingBox (lines 424-444); the argument counts the
    attempts left (maxRetries defaults to 3). -/
def getElementBoundingBox : ℕ → M St (Option BBox)
  | 0 => pure none
  | n + 1 => do
    let r ← query (fun p => p.bbox)
    match r with
    | .ok b =>
      if b.width > 0 ∧ b.height > 0 then pure (some b)
      else do
        if n > 0 then randomDelay 50 150 else pure ()
        getElementBoundingBox n
    | .nullR => do
      if n > 0 then randomDelay 50 150 else pure ()
      getElementBoundingBox n
    | .exn =>
      if n = 0 then pure none
      else do
        randomDelay 100 200
        getElementBoundingBox n

/-- Source getScrollContainer (lines 182-275).  The oracle answers with the
    container info when a scrollable ancestor was found; otherwise (including
    every failure path) the window fallback is built from the viewport.  The
    boolean records whether a container handle is held. -/
def getScrollContainer : M St (CInfo × Bool) := do
  let r ← query (fun p => p.container)
  match r with
  | some info => pure (info, true)
  | none => do
    let vp ← getViewport
    pure (⟨true, vp.scrollY, vp.scrollX, vp.documentHeight, vp.documentWidth,
           vp.height, vp.width⟩, false)

/-- Source isElementInViewport (lines 362-419).  The nested-container branch
    is one in-page evaluate whose boolean comes from the oracle. -/
def isElementInViewport (buffer : ℚ) : M St Bool := do
  let bx ← getElementBoundingBox 3
  match bx with
  | none => pure false
  | some box => do
    let sc ← getScrollContainer
    let vp ← getViewport
    if sc.1.isWindow then
      let viewTop := vp.scrollY - buffer
      let viewBottom := vp.scrollY + vp.height + buffer
      let viewLeft := vp.scrollX - buffer
      let viewRight := vp.scrollX + vp.width + buffer
      let hasVerticalOverlap := !(decide (box.y + box.height < viewTop) ||
        decide (box.y > viewBottom))
      let hasHorizontalOverlap := !(decide (box.x + box.width < viewLeft) ||
        decide (box.x > viewRight))
      pure (hasVerticalOverlap && hasHorizontalOverlap)
    else
      query (fun p => p.inContainer)

/-- Position-stability polling loop of waitForElementStability
    (lines 530-566), with fuel for the wall-clock loop. -/
def posStabilityLoop : ℕ → ℚ → ℚ → Option BBox → ℕ → M St (Option BBox)
  | 0, _, _, lastBox, _ => pure lastBox
  | f + 1, startTime, timeout, lastBox, stableCount => do
    let t ← timeNow
    if t - startTime < timeout then do
      let r ← query (fun p => p.bbox)
      match r with
      | .ok box =>
        match lastBox with
        | some lb =>
          if |box.x - lb.x| < 1 ∧ |box.y - lb.y| < 1 ∧
             |box.width - lb.width| < 1 ∧ |box.height - lb.height| < 1 then
            if stableCount + 1 ≥ 3 then pure (some box)
            else do
              randomDelay 50 100
              posStabilityLoop f startTime timeout (some box) (stableCount + 1)
          else do
            randomDelay 50 100
            posStabilityLoop f startTime timeout (some box) 0
        | none => do
          randomDelay 50 100
          posStabilityLoop f startTime timeout (some box) stableCount
      | .nullR => do
        randomDelay 50 100
        posStabilityLoop f startTime timeout lastBox stableCount
      | .exn => do
        randomDelay 100 200
        posStabilityLoop f startTime timeout lastBox stableCount
    else pure lastBox

/-- Source waitForElementStability (lines 449-567).  The in-page animation
    check and the RAF stability race are driver-side; their boolean results
    come from the oracle (the race result is only logged). -/
def waitForElementStability (fuel : ℕ) (timeout : ℚ) : M St (Option BBox) := do
  let startTime ← timeNow
  let ha ← query (fun p => p.hasAnimations)
  if ha then randomDelay 300 500 else pure ()
  let _stable ← query (fun p => p.stableEval)
  posStabilityLoop fuel startTime timeout none 0

/-- The clickability wait loop at the top of click (lines 891-896), with
    fuel for the wall-clock loop. -/
def clickWaitLoop : ℕ → ℚ → ℚ → M St Unit
  | 0, _, _ => pure ()
  | f + 1, startTime, maxWait => do
    let t ← timeNow
    if t - startTime < maxWait then do
      let c ← isElementClickable
      if c then pure ()
      else do
        randomDelay 80 180
        clickWaitLoop f startTime maxWait
    else pure ()

/-- Source calculateClickTarget (lines 1011-1033). -/
def calculateClickTarget (box : BBox) (opts : Opts) : M St Pt := do
  let c ← getCfg
  let clickPaddingFactor := opts.clickPadding.getD 0.68
  let fatigueOffset := (c.fatigueMultiplier - 1) * 0.15
  let biasX := -0.1 + fatigueOffset
  let biasY := -0.05 + fatigueOffset
  let gx ← randomGaussian biasX (0.25 * c.fatigueMultiplier)
  let offsetX := gx * box.width * clickPaddingFactor
  let gy ← randomGaussian biasY (0.25 * c.fatigueMultiplier)
  let offsetY := gy * box.height * clickPaddingFactor
  let targetX0 := box.x + box.width / 2 + offsetX
  let targetY0 := box.y + box.height / 2 + offsetY
  let marginX := min 8 (box.width * 0.1)
  let marginY := min 8 (box.height * 0.1)
  let targetX := clamp targetX0 (box.x + marginX) (box.x + box.width - marginX)
  let targetY := clamp targetY0 (box.y + marginY) (box.y + box.height - marginY)
  pure ⟨targetX, targetY⟩

/-- Source calculateNaturalApproachTarget (lines 1038-1076); the box
    parameter is present but unused in the source as well. -/
def calculateNaturalApproachTarget (clickTarget : Pt) (_box : BBox)
    (vp : Viewport) : M St Pt := do
  let env ← getEnv
  let s ← getS
  match s.lastPos with
  | none => do
    let r1 ← draw
    let distance := 25 + r1 * 35
    let r2 ← draw
    let angle := r2 * env.pi * 2
    let x := clamp (clickTarget.x + env.cos angle * distance) 0 (vp.width - 1)
    let y := clamp (clickTarget.y + env.sin angle * distance) 0 (vp.height - 1)
    pure ⟨x, y⟩
  | some lp => do
    let c ← getCfg
    let dx := clickTarget.x - lp.x
    let dy := clickTarget.y - lp.y
    let d0 := env.sqrt (dx * dx + dy * dy)
    let distance := if d0 = 0 then 1 else d0
    let dirX := dx / distance
    let dirY := dy / distance
    let r1 ← draw
    let approachDistance := 25 + r1 * 35
    let r2 ← draw
    let perpendicularAngle := env.atan2 dirY dirX + (r2 - 0.5) * (env.pi / 6)
    let r3 ← draw
    let jitterMagnitude := (r3 - 0.5) * 20 * c.fatigueMultiplier
    let x := clamp (clickTarget.x - dirX * approachDistance +
      env.cos perpendicularAngle * jitterMagnitude) 0 (vp.width - 1)
    let y := clamp (clickTarget.y - dirY * approachDistance +
      env.sin perpendicularAngle * jitterMagnitude) 0 (vp.height - 1)
    pure ⟨x, y⟩

/-- Source postClickBehavior (lines 1081-1109). -/
def postClickBehavior (fuel : ℕ) (clickTarget : Pt) (vp : Viewport)
    (opts : Opts) : M St Unit := do
  let behavior ← draw
  if behavior < 0.35 then randomDelay 120 550
  else if behavior < 0.65 then do
    let c ← getCfg
    let gx ← randomGaussian 0 (6 * c.fatigueMultiplier)
    let jitterX := clickTarget.x + gx
    let gy ← randomGaussian 0 (6 * c.fatigueMultiplier)
    let jitterY := clickTarget.y + gy
    moveToPosition fuel (clamp jitterX 0 (vp.width - 1)) (clamp jitterY 0 (vp.height - 1))
      { opts with numPoints := some 2 }
    randomDelay 60 220
  else do
    let env ← getEnv
    let r1 ← draw
    let awayDistance := 35 + r1 * 80
    let r2 ← draw
    let awayAngle := r2 * env.pi * 2
    let awayX := clickTarget.x + env.cos awayAngle * awayDistance
    let awayY := clickTarget.y + env.sin awayAngle * awayDistance
    moveToPosition fuel (clamp awayX 0 (vp.width - 1)) (clamp awayY 0 (vp.height - 1)) opts

/-- Source preScrollMouseMovement (lines 742-760). -/
def preScrollMouseMovement (fuel : ℕ) (vp : Viewport) (opts : Opts) : M St Unit := do
  let s ← getS
  if s.lastPos = none then initPosition vp else pure ()
  let r1 ← draw
  let hx := vp.width * (0.25 + r1 * 0.5)
  let r2 ← draw
  let hy := vp.height * (0.15 + r2 * 0.7)
  let env ← getEnv
  let s2 ← getS
  let lp := s2.lastPos.getD ⟨0, 0⟩
  let distance := calculateDistance env lp ⟨hx, hy⟩
  if distance > 60 then
    moveToPosition fuel hx hy { opts with numPoints := some (max 6 (jsRound (distance / 60))) }
  else pure ()

/-- Loop body of executeScrollSequence (lines 769-829). -/
def executeScrollLoop (target dir numSteps overshootAmount jitterStdDev : ℚ)
    (sc : CInfo × Bool) : ℕ → ℕ → M St Unit
  | _, 0 => pure ()
  | i, n + 1 => do
    if sc.1.isWindow ∨ sc.2 then do
      let currentScroll ←
        if sc.1.isWindow then query (fun p => p.scrollYq)
        else query (fun p => p.containerScroll)
      let remainingDelta := |target - currentScroll|
      if remainingDelta < 8 then pure ()
      else do
        let c ← getCfg
        let env ← getEnv
        let progress := (i : ℚ) / numSteps
        let logDeceleration := 1 - env.log10 (1 + 9 * progress)
        let easedProgress ← easeInOutCubic progress
        let blendedProgress := easedProgress * 0.6 + logDeceleration * 0.4
        let stepDelta0 := remainingDelta * (1 - blendedProgress) * 0.3 / c.fatigueMultiplier
        let distanceBasedJitter := min jitterStdDev (remainingDelta * 0.12)
        let g ← randomGaussian 0 distanceBasedJitter
        let stepDelta1 := clamp (stepDelta0 + g) 8 180
        let stepDelta :=
          if overshootAmount > 0 ∧ (i : ℚ) > numSteps * 0.75 then
            stepDelta1 + overshootAmount * (((i : ℚ) - numSteps * 0.75) / (numSteps * 0.25)) * 0.4
          else stepDelta1
        if sc.1.isWindow then emit (.wheel 0 (dir * stepDelta))
        else emit (.cscroll (dir * stepDelta))
        let rB ← draw
        let baseDelay := (18 + rB * 75) * c.fatigueMultiplier
        let microPause ← do
          let rM ← draw
          if rM < 0.12 then do
            let rM2 ← draw
            pure (rM2 * 90)
          else pure 0
        randomDelay baseDelay (baseDelay + microPause)
        let rA ← draw
        if rA < 0.18 then microMouseAdjustment else pure ()
        executeScrollLoop target dir numSteps overshootAmount jitterStdDev sc (i + 1) n
    else pure ()

/-- Source executeScrollSequence (lines 765-830). -/
def executeScrollSequence (targetScroll direction numSteps overshootAmount : ℚ)
    (sc : CInfo × Bool) (opts : Opts) : M St Unit := do
  let c ← getCfg
  let jitterStdDev := opts.scrollJitterStdDev.getD 18 * c.fatigueMultiplier
  executeScrollLoop targetScroll direction numSteps overshootAmount jitterStdDev sc 1
    (toLoopN numSteps)

/-- Loop body of executeCorrectionScrollLogarithmic (lines 839-881). -/
def correctionScrollLoop (target dir correctionSteps jitterStdDev : ℚ)
    (sc : CInfo × Bool) : ℕ → ℕ → M St Unit
  | _, 0 => pure ()
  | i, n + 1 => do
    if sc.1.isWindow ∨ sc.2 then do
      let currentScroll ←
        if sc.1.isWindow then query (fun p => p.scrollYq)
        else query (fun p => p.containerScroll)
      let correctionDelta := |target - currentScroll|
      if correctionDelta < 8 then pure ()
      else do
        let c ← getCfg
        let env ← getEnv
        let progress := (i : ℚ) / correctionSteps
        let logFactor := 1 - env.log10 (1 + 9 * progress)
        let stepDelta0 := correctionDelta * logFactor * 0.4 / c.fatigueMultiplier
        let g ← randomGaussian 0 jitterStdDev
        let stepDelta := clamp (stepDelta0 + g) 8 130
        if sc.1.isWindow then emit (.wheel 0 (-dir * stepDelta))
        else emit (.cscroll (-dir * stepDelta))
        randomDelay (12 * c.fatigueMultiplier) (65 * c.fatigueMultiplier)
        correctionScrollLoop target dir correctionSteps jitterStdDev sc (i + 1) n
    else pure ()

/-- Source executeCorrectionScrollLogarithmic (lines 835-882). -/
def executeCorrectionScrollLogarithmic (targetScroll direction correctionSteps : ℚ)
    (sc : CInfo × Bool) (opts : Opts) : M St Unit := do
  let c ← getCfg
  let jitterStdDev := opts.scrollJitterStdDev.getD 18 / 2 * c.fatigueMultiplier
  correctionScrollLoop targetScroll direction correctionSteps jitterStdDev sc 1
    (toLoopN correctionSteps)

/-- Scroll target computation of scrollToElement (lines 607-680): window
    branch arithmetic, or the in-page nested-container computation whose
    result comes from the oracle, with its not-found fallback. -/
def scrollTargets (box : BBox) (vp : Viewport) (sc : CInfo × Bool)
    (opts : Opts) : M St (ℚ × ℚ) := do
  let targetPosition := opts.targetPosition.getD .center
  if sc.1.isWindow then
    let currentScroll := vp.scrollY
    let targetScroll0 :=
      match targetPosition with
      | .top => box.y - opts.offset.getD 100
      | .bottom => box.y + box.height - vp.height + opts.offset.getD 100
      | .center => box.y + box.height / 2 - vp.height / 2
    let maxScroll := sc.1.scrollHeight - vp.height
    pure (currentScroll, clamp targetScroll0 0 maxScroll)
  else do
    let si ← query (fun p => p.scrollInfoQ)
    match si with
    | some info => pure (info.currentScroll, info.targetScroll)
    | none =>
      let targetScroll0 := box.y + box.height / 2 - vp.height / 2
      pure (vp.scrollY, clamp targetScroll0 0 (sc.1.scrollHeight - vp.height))

/-- Source scrollToElement (lines 589-737). -/
def scrollToElement (fuel : ℕ) (opts : Opts) : MF St Unit := do
  let vp ← MF.ofM getViewport
  let iv ← MF.ofM (isElementInViewport (opts.visibilityBuffer.getD 50))
  if iv then
    MF.ofM do
      let r ← draw
      if r < 0.25 then do
        let microScroll ← randomGaussian 0 12
        emit (.wheel 0 microScroll)
        randomDelay 50 150
      else pure ()
  else do
    let bx ← MF.ofM (getElementBoundingBox 3)
    match bx with
    | none => MF.fail "Element has no bounding box"
    | some box => do
      let sc ← MF.ofM getScrollContainer
      let ct ← MF.ofM (scrollTargets box vp sc opts)
      let currentScroll := ct.1
      let targetScroll := ct.2
      MF.ofM (preScrollMouseMovement fuel vp opts)
      let delta := |targetScroll - currentScroll|
      if delta < 10 then pure ()
      else do
        let direction : ℚ := if targetScroll > currentScroll then 1 else -1
        let env ← MF.ofM getEnv
        let scrollID := env.log2 (delta / 100 + 1)
        let baseSteps := max 5 (jsRound (8 * scrollID))
        let numSteps ← MF.ofM (applyFatigue baseSteps)
        let overshootProb := opts.overshootProb.getD 0.18
        let shouldOvershoot ← MF.ofM (do
          if delta > 250 then do
            let r ← draw
            let c ← getCfg
            pure (decide (r < overshootProb) && decide (c.attentionSpan < 0.94))
          else pure false)
        let overshootAmount ← MF.ofM (do
          if shouldOvershoot then do
            let g ← randomGaussian 0.15 0.07
            pure (clamp (g * vp.height) 40 (vp.height * 0.35))
          else pure 0)
        MF.ofM (executeScrollSequence targetScroll direction numSteps overshootAmount sc opts)
        if overshootAmount > 0 then do
          MF.ofM (randomDelay 120 350)
          MF.ofM (executeCorrectionScrollLogarithmic targetScroll direction
            (max 3 (jsRound (numSteps / 3))) sc opts)
        else pure ()
        MF.ofM (randomDelay 80 180)
        MF.ofM updateActionCount

/-- Source click (lines 887-1006).  The pointer press and release are the
    driver accepting the calls; the rethrow of a failed press is dead in
    this model.  The pre and post click snapshots are oracle values used
    only for logging. -/
def click (fuelWait fuelStab fuelTraj : ℕ) (opts : Opts) : MF St Unit := do
  let maxWaitTime := opts.waitTimeout.getD 5000
  let startTime ← MF.ofM timeNow
  MF.ofM (clickWaitLoop fuelWait startTime maxWaitTime)
  let cl ← MF.ofM isElementClickable
  if !cl then MF.fail "Element is not clickable" else pure ()
  let stableBox ← MF.ofM (waitForElementStability fuelStab (opts.stabilityTimeout.getD 1500))
  match stableBox with
  | none => MF.fail "Element position is unstable"
  | some _ => pure ()
  let vp ← MF.ofM getViewport
  MF.tryLog (scrollToElement fuelTraj opts) ()
  MF.ofM (randomDelay 120 250)
  let bx ← MF.ofM (getElementBoundingBox 3)
  match bx with
  | none => MF.fail "Element bounding box unavailable"
  | some box => do
    MF.ofM humanReactionDelay
    let ct0 ← MF.ofM (calculateClickTarget box opts)
    let clickTarget : Pt := ⟨clamp ct0.x 0 (vp.width - 1), clamp ct0.y 0 (vp.height - 1)⟩
    let approachTarget ← MF.ofM (calculateNaturalApproachTarget clickTarget box vp)
    MF.ofM (moveToPosition fuelTraj approachTarget.x approachTarget.y
      { opts with isApproach := true })
    MF.ofM (randomDelay 120 450)
    let np ← MF.ofM (do
      let r ← draw
      pure (max 3 (jsRound (2 + r * 4))))
    MF.ofM (moveToPosition fuelTraj clickTarget.x clickTarget.y
      { opts with numPoints := some np })
    let cl2 ← MF.ofM isElementClickable
    if !cl2 then MF.fail "Element became unclickable" else pure ()
    let preClickState ← MF.ofM (query (fun p => p.preSt))
    let dur ← MF.ofM (do
      let g ← randomGaussian 75 20
      pure (max 40 (jsRound g)))
    MF.ofM (emit .down)
    MF.ofM (randomDelay dur (dur + 15))
    MF.ofM (emit .up)
    if opts.validateClick ∧ preClickState.isSome then do
      MF.ofM (randomDelay 50 150)
      let _post ← MF.ofM (query (fun p => p.preSt))
      pure ()
    else pure ()
    MF.ofM (postClickBehavior fuelTraj clickTarget vp opts)
    MF.ofM (modifyS fun st => { st with lastPos := some clickTarget })
    MF.ofM updateActionCount

end V1

namespace V2

/-- The this.config bag of the second revision (lines 1751-1763). -/
structure Config where
  fatigueEnabled : Bool
  fatigueThreshold : ℚ
  actionCount : ℤ
  attentionSpan : ℚ
  baseReactionTime : ℚ
  reactionTimeVariance : ℚ
deriving DecidableEq, Repr

/-- Constructor defaults; r is the Math.random() drawn for attentionSpan
    (line 1758: 0.85 to 1.0). -/
def initConfig (r : ℚ) : Config :=
  { fatigueEnabled := true, fatigueThreshold := 20, actionCount := 0,
    attentionSpan := r * 0.15 + 0.85, baseReactionTime := 180, reactionTimeVariance := 120 }

/-- Mutable instance state of the second revision; lastPos starts at (0,0). -/
structure St where
  k : ℕ
  q : ℕ
  clock : ℚ
  lastPos : Pt
  lastMoveTime : ℚ
  history : List (Pt × ℚ)
  cachedViewport : Option Viewport
  viewportCacheTime : ℚ
  cfg : Config

/-- Freshly constructed engine state (lines 1741-1764). -/
def initSt (r : ℚ) : St :=
  { k := 0, q := 0, clock := 0, lastPos := ⟨0, 0⟩, lastMoveTime := 0, history := [],
    cachedViewport := none, viewportCacheTime := 0, cfg := initConfig r }

def draw : M St ℚ := fun w s => (w.rng s.k, { s with k := s.k + 1 }, [])

def query {β : Type} (f : PageO → ℕ → β) : M St β :=
  fun w s => (f w.page s.q, { s with q := s.q + 1 }, [])

def getEnv : M St MathEnv := fun w s => (w.env, s, [])

def getS : M St St := fun _ s => (s, s, [])

def modifyS (f : St → St) : M St Unit := fun _ s => ((), f s, [])

def getCfg : M St Config := fun _ s => (s.cfg, s, [])

def setCfg (c : Config) : M St Unit := fun _ s => ((), { s with cfg := c }, [])

def timeNow : M St ℚ := fun _ s => (s.clock, s, [])

def emit (e : Ev) : M St Unit := fun _ s => ((), s, [e])

def passTime (d : ℚ) : M St Unit := fun _ s => ((), { s with clock := s.clock + d }, [])

/-- Source randomDelay (lines 2524-2527): a single draw, no micro variation;
    a negative requested delay sleeps immediately. -/
def randomDelay (lo hi : ℚ) : M St Unit := do
  let r ← draw
  let d := lo + r * (hi - lo)
  emit (.sleep d)
  passTime (max 0 d)

/-- Source randomGaussian (lines 2503-2508), textually identical to the
    first revision. -/
def randomGaussian (mean stdDev : ℚ) : M St ℚ := do
  let env ← getEnv
  let r1 ← draw
  let u := 1 - r1
  let v ← draw
  let z := env.sqrt (-(2 : ℚ) * env.log u) * env.cos (2 * env.pi * v)
  pure (z * stdDev + mean)

/-- Source easeInOutCubic (lines 2490-2498), with the 0.02 variance of the
    second revision. -/
def easeInOutCubic (t0 : ℚ) : M St ℚ := do
  let r ← draw
  let t := clamp (t0 + (r - 0.5) * 0.02) 0 1
  pure (if t < 0.5 then 4 * t * t * t else 1 - (-2 * t + 2) ^ 3 / 2)

/-- Pure applyFatigue of the second revision (lines 2559-2568): no state
    mutation and no hard ceiling, the factor is capped at 1.5. -/
def applyFatigueP (c : Config) (baseValue : ℚ) : ℚ :=
  if !c.fatigueEnabled then baseValue
  else if (c.actionCount : ℚ) > c.fatigueThreshold then
    let fatigueMultiplier := 1 + ((c.actionCount : ℚ) - c.fatigueThreshold) * 0.02
    jsRound (baseValue * min fatigueMultiplier 1.5)
  else baseValue

def applyFatigue (baseValue : ℚ) : M St ℚ := fun _ s => (applyFatigueP s.cfg baseValue, s, [])

/-- Pure core of updateActionCount (lines 2573-2584): fixed recovery of 20
    every 50 actions, attention floor 0.85, ceiling 1 on recovery; this
    revision consumes no draw here. -/
def updateActionCountP (c : Config) : Config :=
  let c1 := { c with actionCount := c.actionCount + 1 }
  let c2 :=
    if c1.actionCount % 50 = 0 then
      { c1 with
        actionCount := max 0 (c1.actionCount - 20)
        attentionSpan := min 1 (c1.attentionSpan + 0.05) }
    else c1
  { c2 with attentionSpan := max 0.85 (c2.attentionSpan - 0.001) }

/-- Source updateActionCount as a state action. -/
def updateActionCount : M St Unit := fun _ s =>
  ((), { s with cfg := updateActionCountP s.cfg }, [])

/-- Pure core of reset (lines 2630-2635); r is the attentionSpan draw. -/
def resetP (c : Config) (r : ℚ) : Config :=
  { c with actionCount := 0, attentionSpan := r * 0.15 + 0.85 }

/-- Source reset as a state action; lastPos is not reset in this revision. -/
def reset : M St Unit := fun w s =>
  ((), { s with
         k := s.k + 1
         cfg := resetP s.cfg (w.rng s.k)
         history := []
         cachedViewport := none
         viewportCacheTime := 0 },
   [])

/-- Source addToHistory (lines 2589-2595). -/
def addToHistory (p : Pt) : M St Unit := do
  let t ← timeNow
  modifyS fun s =>
    let h := s.history ++ [(p, t)]
    { s with history := if h.length > 50 then h.tail else h }

/-- Fallback viewport of the second revision (lines 1794-1800); it exposes
    only the four populated fields, the document fields are unused. -/
def fallbackViewport : Viewport := ⟨1920, 1080, 0, 0, 0, 0⟩

/-- Source getViewport (lines 1769-1801) with its five-minute cache; any
    driver failure returns the fallback without caching it. -/
def getViewport : M St Viewport := do
  let nowT ← timeNow
  let s ← getS
  match s.cachedViewport with
  | some v =>
    if nowT - s.viewportCacheTime < 300000 then pure v
    else do
      let r ← query (fun p => p.viewport)
      match r with
      | .ok v2 => do
        modifyS fun st => { st with cachedViewport := some v2, viewportCacheTime := nowT }
        pure v2
      | _ => pure fallbackViewport
  | none => do
    let r ← query (fun p => p.viewport)
    match r with
    | .ok v2 => do
      modifyS fun st => { st with cachedViewport := some v2, viewportCacheTime := nowT }
      pure v2
    | _ => pure fallbackViewport

def getCurrentScrollY : M St ℚ := query (fun p => p.scrollYq)

/-- Source isElementInViewport (lines 1814-1834): partial visibility against
    the window viewport only. -/
def isElementInViewport (buffer : ℚ) : M St Bool := do
  let r ← query (fun p => p.bbox)
  match r with
  | .ok box => do
    let vp ← getViewport
    let viewTop := vp.scrollY - buffer
    let viewBottom := vp.scrollY + vp.height + buffer
    let viewLeft := vp.scrollX - buffer
    let viewRight := vp.scrollX + vp.width + buffer
    let verticallyVisible := decide (box.y < viewBottom) && decide (box.y + box.height > viewTop)
    let horizontallyVisible := decide (box.x < viewRight) && decide (box.x + box.width > viewLeft)
    pure (verticallyVisible && horizontallyVisible)
  | _ => pure false

/-- Source initializePosition (lines 2548-2554). -/
def initPosition (vp : Viewport) : M St Unit := do
  let r1 ← draw
  let x := vp.width * (0.3 + r1 * 0.4)
  let r2 ← draw
  let y := vp.height * (0.3 + r2 * 0.4)
  let t ← timeNow
  modifyS fun s => { s with lastPos := ⟨x, y⟩, lastMoveTime := t }

/-- Source humanReactionDelay (lines 2513-2519). -/
def humanReactionDelay : M St Unit := do
  let c ← getCfg
  let g ← randomGaussian c.baseReactionTime c.reactionTimeVariance
  let reactionTime := max 80 g
  randomDelay (reactionTime * 0.8) (reactionTime * 1.2)

/-- Source microMouseAdjustment (lines 2454-2469); clamps to [0, width]. -/
def microMouseAdjustment : M St Unit := do
  let s ← getS
  let gx ← randomGaussian 0 3
  let gy ← randomGaussian 0 3
  let microX := s.lastPos.x + gx
  let microY := s.lastPos.y + gy
  let vp ← getViewport
  let ok ← query (fun p => p.moveOk)
  if ok then emit (.move (clamp microX 0 vp.width) (clamp microY 0 vp.height))
  else pure ()

/-- Control points of the second revision (lines 2320-2352). -/
structure Ctrl where
  p0 : Pt
  p1 : Pt
  p2 : Pt
  p3 : Pt
deriving DecidableEq, Repr

/-- Result of calculateBezierPoints and handleOvershoot. -/
structure PathResult where
  points : List Pt
  finalPos : Pt
deriving DecidableEq, Repr

/-- The clamp applied to every generated sample in the second revision
    (lines 2307-2308 and 2442-2443): [0, width] x [0, height]. -/
def clampPt (vp : Viewport) (p : Pt) : Pt :=
  ⟨clamp p.x 0 vp.width, clamp p.y 0 vp.height⟩

/-- Source calculateControlPoints (lines 2320-2352). -/
def calculateControlPoints (startX startY targetX targetY D : ℚ)
    (opts : Opts) : M St Ctrl := do
  let env ← getEnv
  let dx := targetX - startX
  let dy := targetY - startY
  let r1 ← draw
  let baseDeviation := D * (0.15 + r1 * 0.25)
  let deviation := if opts.isApproach then baseDeviation * 0.5 else baseDeviation
  let len0 := env.sqrt (dx * dx + dy * dy)
  let length := if len0 = 0 then 1 else len0
  let perpX := -dy / length
  let perpY := dx / length
  let r2 ← draw
  let randomSign : ℚ := if r2 < 0.5 then -1 else 1
  let r3 ← draw
  let c1Factor := 0.25 + r3 * 0.15
  let r4 ← draw
  let c2Factor := 0.60 + r4 * 0.15
  let r5 ← draw
  let c1x := startX + dx * c1Factor + randomSign * deviation * perpX * (0.5 + r5 * 0.5)
  let r6 ← draw
  let c1y := startY + dy * c1Factor + randomSign * deviation * perpY * (0.5 + r6 * 0.5)
  let r7 ← draw
  let c2x := startX + dx * c2Factor + randomSign * deviation * perpX * (0.5 + r7 * 0.5)
  let r8 ← draw
  let c2y := startY + dy * c2Factor + randomSign * deviation * perpY * (0.5 + r8 * 0.5)
  pure ⟨⟨startX, startY⟩, ⟨c1x, c1y⟩, ⟨c2x, c2y⟩, ⟨targetX, targetY⟩⟩

/-- One iteration of the point loop of calculateBezierPoints
    (lines 2288-2305) before the final clamp. -/
def bezierStepRaw (numPoints D jitterStdDev : ℚ) (ctrl : Ctrl) (i : ℕ) : M St Pt := do
  let c ← getCfg
  let linearT := (i : ℚ) / numPoints
  let easedT ← easeInOutCubic linearT
  let p0 := getBezierPoint easedT ctrl.p0 ctrl.p1 ctrl.p2 ctrl.p3
  let distanceToEnd := (1 - easedT) * D
  let distanceBasedJitter := jitterStdDev * min 1 (distanceToEnd / 100)
  let gx ← randomGaussian 0 distanceBasedJitter
  let gy ← randomGaussian 0 distanceBasedJitter
  let p1 : Pt := ⟨p0.x + gx, p0.y + gy⟩
  if c.attentionSpan < 0.95 then do
    let r ← draw
    if r > c.attentionSpan then do
      let ex ← randomGaussian 0 3
      let ey ← randomGaussian 0 3
      pure (⟨p1.x + ex, p1.y + ey⟩ : Pt)
    else pure p1
  else pure p1

/-- One full iteration: the raw point, the clamp to the viewport
    (lines 2307-2308) and the push. -/
def bezierStep (vp : Viewport) (numPoints D jitterStdDev : ℚ) (ctrl : Ctrl)
    (i : ℕ) : M St Pt := do
  let p ← bezierStepRaw numPoints D jitterStdDev ctrl i
  pure (clampPt vp p)

/-- The point loop of calculateBezierPoints. -/
def bezierLoop (vp : Viewport) (numPoints D jitterStdDev : ℚ) (ctrl : Ctrl) :
    ℕ → ℕ → List Pt → M St (List Pt)
  | _, 0, acc => pure acc
  | i, n + 1, acc => do
    let p ← bezierStep vp numPoints D jitterStdDev ctrl i
    bezierLoop vp numPoints D jitterStdDev ctrl (i + 1) n (acc ++ [p])

/-- The point loop of generateCorrectionPath (lines 2434-2446). -/
def correctionLoop (vp : Viewport) (correctionNumPoints jitterStdDev : ℚ)
    (ctrl : Ctrl) : ℕ → ℕ → List Pt → M St (List Pt)
  | _, 0, acc => pure acc
  | i, n + 1, acc => do
    let linearT := (i : ℚ) / correctionNumPoints
    let easedT ← easeInOutCubic linearT
    let p := getBezierPoint easedT ctrl.p0 ctrl.p1 ctrl.p2 ctrl.p3
    let gx ← randomGaussian 0 jitterStdDev
    let gy ← randomGaussian 0 jitterStdDev
    let p2 := clampPt vp ⟨p.x + gx, p.y + gy⟩
    correctionLoop vp correctionNumPoints jitterStdDev ctrl (i + 1) n (acc ++ [p2])

/-- Source generateCorrectionPath (lines 2403-2449). -/
def generateCorrectionPath (overshootX overshootY targetX targetY : ℚ)
    (vp : Viewport) (opts : Opts) : M St (List Pt) := do
  let env ← getEnv
  let correctionD := calculateDistance env ⟨overshootX, overshootY⟩ ⟨targetX, targetY⟩
  let correctionNumPoints := max 5 (jsRound (correctionD / 10))
  let jitterStdDev := opts.jitterStdDev.getD 1.5 / 2
  let dx := targetX - overshootX
  let dy := targetY - overshootY
  let len0 := env.sqrt (dx * dx + dy * dy)
  let length := if len0 = 0 then 1 else len0
  let r1 ← draw
  let correctionDeviation := correctionD * (0.05 + r1 * 0.1)
  let perpX := -dy / length
  let perpY := dx / length
  let r2 ← draw
  let correctionSign : ℚ := if r2 < 0.5 then -1 else 1
  let r3 ← draw
  let c1x := overshootX + dx * 0.3 + correctionSign * correctionDeviation * perpX * r3
  let r4 ← draw
  let c1y := overshootY + dy * 0.3 + correctionSign * correctionDeviation * perpY * r4
  let r5 ← draw
  let c2x := overshootX + dx * 0.7 + correctionSign * correctionDeviation * perpX * r5
  let r6 ← draw
  let c2y := overshootY + dy * 0.7 + correctionSign * correctionDeviation * perpY * r6
  let ctrl : Ctrl := ⟨⟨overshootX, overshootY⟩, ⟨c1x, c1y⟩, ⟨c2x, c2y⟩, ⟨targetX, targetY⟩⟩
  correctionLoop vp correctionNumPoints jitterStdDev ctrl 1 (toLoopN correctionNumPoints) []

/-- Source handleOvershoot (lines 2357-2398), parameterized by the trajectory
    generator used for the overshoot segment; the inner call passes
    overshootProb 0 to prevent recursive overshoot. -/
def handleOvershootGo
    (inner : ℚ → ℚ → ℚ → ℚ → Option BBox → Viewport → Opts → M St PathResult)
    (startX startY targetX targetY : ℚ)
    (box : Option BBox) (vp : Viewport) (points : List Pt) (opts : Opts)
    (D W : ℚ) : M St PathResult := do
  let c ← getCfg
  let overshootProb := opts.overshootProb.getD 0.2
  let isRandomTarget := box.isNone
  if !isRandomTarget ∧ !opts.isApproach ∧ D > 100 then do
    let r ← draw
    if r < overshootProb ∧ c.attentionSpan < 0.93 then do
      let env ← getEnv
      let dx := targetX - startX
      let dy := targetY - startY
      let len0 := env.sqrt (dx * dx + dy * dy)
      let length := if len0 = 0 then 1 else len0
      let dirX := dx / length
      let dirY := dy / length
      let rf ← draw
      let overshootFactor := 0.1 + rf * 0.2
      let overshootDist := overshootFactor * W
      let overshootX := targetX + dirX * overshootDist
      let overshootY := targetY + dirY * overshootDist
      let overshootResult ← inner startX startY overshootX
        overshootY box vp { opts with overshootProb := some 0 }
      let correctionPoints ← generateCorrectionPath overshootX overshootY
        targetX targetY vp opts
      pure { points := overshootResult.points ++ correctionPoints,
             finalPos := ⟨targetX, targetY⟩ }
    else pure { points := points, finalPos := ⟨targetX, targetY⟩ }
  else pure { points := points, finalPos := ⟨targetX, targetY⟩ }

/-- Source calculateBezierPoints (lines 2267-2315). -/
def calculateBezierPoints (fuel : ℕ) (startX startY targetX targetY : ℚ)
    (box : Option BBox) (vp : Viewport) (opts : Opts) : M St PathResult := do
  let env ← getEnv
  let D := calculateDistance env ⟨startX, startY⟩ ⟨targetX, targetY⟩
  let W := match box with
    | some b => min b.width b.height
    | none => opts.defaultTargetWidth.getD 100
  let ID := env.log2 (D / W + 1)
  let baseNumPoints0 := max 15 (jsRound (12 * ID))
  let baseNumPoints ← applyFatigue baseNumPoints0
  let numPoints := opts.numPoints.getD baseNumPoints
  let ctrl ← calculateControlPoints startX startY targetX targetY D opts
  let jitterStdDev := opts.jitterStdDev.getD 1.5
  let points ← bezierLoop vp numPoints D jitterStdDev ctrl 1 (toLoopN numPoints) []
  match fuel with
  | 0 => pure { points := points, finalPos := ⟨targetX, targetY⟩ }
  | fuel' + 1 =>
    handleOvershootGo (calculateBezierPoints fuel') startX startY targetX targetY box vp
      points opts D W

/-- Source handleOvershoot at a given remaining recursion fuel. -/
def handleOvershoot (fuel : ℕ) (startX startY targetX targetY : ℚ)
    (box : Option BBox) (vp : Viewport) (points : List Pt) (opts : Opts)
    (D W : ℚ) : M St PathResult :=
  handleOvershootGo (calculateBezierPoints fuel)
    startX startY targetX targetY box vp points opts D W

/-- The execution loop of moveToPosition (lines 2226-2257); a failed driver
    move skips the delays of that iteration. -/
def movePointsLoop (len : ℕ) : ℕ → List Pt → M St Unit
  | _, [] => pure ()
  | i, p :: rest => do
    let ok ← query (fun pg => pg.moveOk)
    if ok then do
      emit (.move p.x p.y)
      let phase := (i : ℚ) / (len : ℚ)
      let d ←
        if phase < 0.2 then do
          let r ← draw
          pure (5 + r * 8)
        else if phase > 0.8 then do
          let r ← draw
          pure (8 + r * 15)
        else do
          let r ← draw
          pure (5 + r * 12)
      randomDelay d (d + 5)
      let rp ← draw
      if rp < 0.02 then randomDelay 30 100 else pure ()
    else pure ()
    movePointsLoop len (i + 1) rest

/-- Source moveToPosition (lines 2207-2262). -/
def moveToPosition (fuel : ℕ) (targetX targetY : ℚ) (opts : Opts) : M St Unit := do
  let vp ← getViewport
  let s ← getS
  if s.lastPos.x = 0 ∧ s.lastPos.y = 0 then initPosition vp else pure ()
  let s2 ← getS
  let r ← calculateBezierPoints fuel s2.lastPos.x s2.lastPos.y targetX targetY none vp opts
  movePointsLoop r.points.length 0 r.points
  let t ← timeNow
  modifyS fun st => { st with lastPos := ⟨targetX, targetY⟩, lastMoveTime := t }
  addToHistory ⟨targetX, targetY⟩

/-- Source preScrollMouseMovement (lines 1950-1964). -/
def preScrollMouseMovement (fuel : ℕ) (vp : Viewport) (opts : Opts) : M St Unit := do
  let r1 ← draw
  let hx := vp.width * (0.3 + r1 * 0.4)
  let r2 ← draw
  let hy := vp.height * (0.2 + r2 * 0.6)
  let env ← getEnv
  let s ← getS
  let distance := calculateDistance env s.lastPos ⟨hx, hy⟩
  if distance > 50 then
    moveToPosition fuel hx hy { opts with numPoints := some (max 8 (jsRound (distance / 50))) }
  else pure ()

/-- Loop body of executeScrollSequence (lines 1973-2010); cumulativeT is the
    eased progress consumed so far. -/
def executeScrollLoop (targetScrollY dir numSteps overshootAmount jitterStdDev : ℚ) :
    ℕ → ℕ → ℚ → M St Unit
  | _, 0, _ => pure ()
  | i, n + 1, cumulativeT => do
    let currentScrollY ← getCurrentScrollY
    let remainingDelta := |targetScrollY - currentScrollY|
    if remainingDelta < 10 then pure ()
    else do
      let linearT := (i : ℚ) / numSteps
      let easedT ← easeInOutCubic linearT
      let stepFraction := easedT - cumulativeT
      let stepDelta0 := stepFraction * remainingDelta
      let distanceBasedJitter := min jitterStdDev (remainingDelta * 0.1)
      let g ← randomGaussian 0 distanceBasedJitter
      let stepDelta1 := clamp (stepDelta0 + g) 10 200
      let stepDelta :=
        if overshootAmount > 0 ∧ (i : ℚ) > numSteps * 0.7 then
          stepDelta1 + overshootAmount * (((i : ℚ) - numSteps * 0.7) / (numSteps * 0.3)) * 0.5
        else stepDelta1
      emit (.wheel 0 (dir * stepDelta))
      let rB ← draw
      let baseDelay := 20 + rB * 80
      let microPause ← do
        let rM ← draw
        if rM < 0.15 then do
          let rM2 ← draw
          pure (rM2 * 100)
        else pure 0
      randomDelay baseDelay (baseDelay + microPause)
      let rA ← draw
      if rA < 0.2 then microMouseAdjustment else pure ()
      executeScrollLoop targetScrollY dir numSteps overshootAmount jitterStdDev (i + 1) n easedT

/-- Source executeScrollSequence (lines 1969-2011). -/
def executeScrollSequence (targetScrollY direction numSteps overshootAmount : ℚ)
    (opts : Opts) : M St Unit := do
  let jitterStdDev := opts.scrollJitterStdDev.getD 20
  executeScrollLoop targetScrollY direction numSteps overshootAmount jitterStdDev 1
    (toLoopN numSteps) 0

/-- Loop body of executeCorrectionScroll (lines 2021-2038). -/
def correctionScrollLoop (targetScrollY dir correctionSteps jitterStdDev : ℚ) :
    ℕ → ℕ → ℚ → M St Unit
  | _, 0, _ => pure ()
  | i, n + 1, cumulativeT => do
    let currentScrollY ← getCurrentScrollY
    let correctionDelta := |targetScrollY - currentScrollY|
    if correctionDelta < 10 then pure ()
    else do
      let linearT := (i : ℚ) / correctionSteps
      let easedT ← easeInOutCubic linearT
      let stepFraction := easedT - cumulativeT
      let g ← randomGaussian 0 jitterStdDev
      let stepDelta := clamp (stepFraction * correctionDelta + g) 10 150
      emit (.wheel 0 (-dir * stepDelta))
      randomDelay 10 70
      correctionScrollLoop targetScrollY dir correctionSteps jitterStdDev (i + 1) n easedT

/-- Source executeCorrectionScroll (lines 2016-2039). -/
def executeCorrectionScroll (targetScrollY direction numSteps : ℚ)
    (opts : Opts) : M St Unit := do
  let correctionSteps := max 3 (jsRound (numSteps / 3))
  let jitterStdDev := opts.scrollJitterStdDev.getD 20 / 2
  correctionScrollLoop targetScrollY direction correctionSteps jitterStdDev 1
    (toLoopN correctionSteps) 0

/-- The wheel loop of finalScrollAdjustment (lines 2052-2057). -/
def adjLoop (finalDelta adjustments : ℚ) : ℕ → M St Unit
  | 0 => pure ()
  | n + 1 => do
    emit (.wheel 0 (finalDelta / adjustments))
    randomDelay 30 80
    adjLoop finalDelta adjustments n

/-- Source finalScrollAdjustment (lines 2044-2060). -/
def finalScrollAdjustment (box : BBox) : M St Unit := do
  let iv ← isElementInViewport 0
  if iv then pure ()
  else do
    let vp ← getViewport
    let finalScrollY ← getCurrentScrollY
    let finalDelta := box.y + box.height / 2 - vp.height / 2 - finalScrollY
    if |finalDelta| > 10 then do
      let adjustments := jsCeil (|finalDelta| / 50)
      adjLoop finalDelta adjustments (toLoopN adjustments)
    else pure ()

/-- Source scrollToElement (lines 1864-1945). -/
def scrollToElement (fuel : ℕ) (opts : Opts) : MF St Unit := do
  let vp ← MF.ofM getViewport
  let iv ← MF.ofM (isElementInViewport (opts.visibilityBuffer.getD 50))
  if iv then
    MF.ofM do
      let r ← draw
      if r < 0.3 then do
        let microScroll ← randomGaussian 0 15
        emit (.wheel 0 microScroll)
        randomDelay 50 150
      else pure ()
  else do
    let bx ← MF.ofM (query (fun p => p.bbox))
    match bx with
    | .ok box => do
      let targetPosition := opts.targetPosition.getD .center
      let scrollY ← MF.ofM getCurrentScrollY
      let targetScrollY0 :=
        match targetPosition with
        | .top => box.y - opts.offset.getD 100
        | .bottom => box.y + box.height - vp.height + opts.offset.getD 100
        | .center => box.y + box.height / 2 - vp.height / 2
      let targetScrollY := max 0 targetScrollY0
      MF.ofM (preScrollMouseMovement fuel vp opts)
      let remainingDelta := |targetScrollY - scrollY|
      let direction : ℚ := if targetScrollY > scrollY then 1 else -1
      let env ← MF.ofM getEnv
      let scrollID := env.log2 (remainingDelta / 100 + 1)
      let baseSteps := max 5 (jsRound (8 * scrollID))
      let numSteps ← MF.ofM (applyFatigue baseSteps)
      let overshootProb := opts.overshootProb.getD 0.2
      let shouldOvershoot ← MF.ofM (do
        if remainingDelta > 200 then do
          let r ← draw
          let c ← getCfg
          pure (decide (r < overshootProb) && decide (c.attentionSpan < 0.95))
        else pure false)
      let overshootAmount ← MF.ofM (do
        if shouldOvershoot then do
          let g ← randomGaussian 0.15 0.08
          pure (clamp (g * vp.height) 50 (vp.height * 0.4))
        else pure 0)
      MF.ofM (executeScrollSequence targetScrollY direction numSteps overshootAmount opts)
      if overshootAmount > 0 then do
        MF.ofM (randomDelay 100 300)
        MF.ofM (executeCorrectionScroll targetScrollY direction numSteps opts)
      else pure ()
      MF.ofM (finalScrollAdjustment box)
      MF.ofM updateActionCount
    | .nullR => MF.fail "Element has no bounding box"
    | .exn => MF.fail "boundingBox failed"

/-- Source calculateClickTarget (lines 2116-2132). -/
def calculateClickTarget (box : BBox) (opts : Opts) : M St Pt := do
  let clickPaddingFactor := opts.clickPadding.getD 0.7
  let gx ← randomGaussian 0 (box.width / 4)
  let offsetX := gx * clickPaddingFactor
  let gy ← randomGaussian 0 (box.height / 4)
  let offsetY := gy * clickPaddingFactor
  let targetX0 := box.x + box.width / 2 + offsetX
  let targetY0 := box.y + box.height / 2 + offsetY
  let margin : ℚ := 5
  pure ⟨clamp targetX0 (box.x + margin) (box.x + box.width - margin),
        clamp targetY0 (box.y + margin) (box.y + box.height - margin)⟩

/-- Source calculateApproachTarget (lines 2137-2146); the box parameter is
    unused in the source as well. -/
def calculateApproachTarget (clickTarget : Pt) (_box : BBox) : M St Pt := do
  let env ← getEnv
  let r1 ← draw
  let distance := 20 + r1 * 30
  let r2 ← draw
  let angle := r2 * env.pi * 2
  pure ⟨clickTarget.x + env.cos angle * distance, clickTarget.y + env.sin angle * distance⟩

/-- Source postClickBehavior (lines 2151-2182). -/
def postClickBehavior (fuel : ℕ) (clickTarget : Pt) (vp : Viewport)
    (opts : Opts) : M St Unit := do
  let behavior ← draw
  if behavior < 0.4 then randomDelay 100 500
  else if behavior < 0.7 then do
    let gx ← randomGaussian 0 8
    let jitterX := clickTarget.x + gx
    let gy ← randomGaussian 0 8
    let jitterY := clickTarget.y + gy
    moveToPosition fuel (clamp jitterX 0 vp.width) (clamp jitterY 0 vp.height)
      { opts with numPoints := some 3 }
    randomDelay 50 200
  else do
    let env ← getEnv
    let r1 ← draw
    let awayDistance := 30 + r1 * 70
    let r2 ← draw
    let awayAngle := r2 * env.pi * 2
    moveToPosition fuel (clamp (clickTarget.x + env.cos awayAngle * awayDistance) 0 vp.width)
      (clamp (clickTarget.y + env.sin awayAngle * awayDistance) 0 vp.height) opts

/-- Source click (lines 2065-2111).  This revision performs no clickability
    check at any point before the press. -/
def click (fuel : ℕ) (opts : Opts) : MF St Unit := do
  let bx ← MF.ofM (query (fun p => p.bbox))
  match bx with
  | .ok box => do
    let vp ← MF.ofM getViewport
    MF.tryLog (scrollToElement fuel opts) ()
    MF.ofM humanReactionDelay
    let clickTarget ← MF.ofM (calculateClickTarget box opts)
    let approachTarget ← MF.ofM (calculateApproachTarget clickTarget box)
    MF.ofM (moveToPosition fuel approachTarget.x approachTarget.y
      { opts with isApproach := true })
    MF.ofM (randomDelay 100 400)
    let np ← MF.ofM (do
      let r ← draw
      pure (max 3 (jsRound (r * 5))))
    MF.ofM (moveToPosition fuel clickTarget.x clickTarget.y
      { opts with numPoints := some np })
    let dur ← MF.ofM (do
      let g ← randomGaussian 70 25
      pure (jsRound g))
    MF.ofM (emit .down)
    MF.ofM (randomDelay (max 30 dur) (dur + 20))
    MF.ofM (emit .up)
    MF.ofM (postClickBehavior fuel clickTarget vp opts)
    MF.ofM (modifyS fun st => { st with lastPos := clickTarget })
    MF.ofM updateActionCount
  | .nullR => MF.fail "Element has no bounding box"
  | .exn => MF.fail "boundingBox failed"

end V2

/-- One engine operation on the fatigue and attention state, the interface
    of section 4.2: record one action, apply fatigue to a base value, or a
    full reset. -/
inductive EngineOp where
  | record
  | fatigue (v : ℚ)
  | resetOp
deriving DecidableEq, Repr

namespace V1

/-- Run a sequence of fatigue and attention operations on the first
    revision. -/
def runOps : List EngineOp → M St Unit
  | [] => pure ()
  | .record :: rest => do
    updateActionCount
    runOps rest
  | .fatigue v :: rest => do
    let _ ← applyFatigue v
    runOps rest
  | .resetOp :: rest => do
    reset
    runOps rest

end V1

namespace V2

/-- Run a sequence of fatigue and attention operations on the second
    revision. -/
def runOps : List EngineOp → M St Unit
  | [] => pure ()
  | .record :: rest => do
    updateActionCount
    runOps rest
  | .fatigue v :: rest => do
    let _ ← applyFatigue v
    runOps rest
  | .resetOp :: rest => do
    reset
    runOps rest

end V2

/-- The coordinates of the mouse move events in a trace. -/
def moveEvents : List Ev → List (ℚ × ℚ)
  | [] => []
  | .move x y :: t => (x, y) :: moveEvents t
  | _ :: t => moveEvents t

/-- The deltas of the wheel events in a trace. -/
def wheelEvents : List Ev → List ℚ
  | [] => []
  | .wheel _ dy :: t => dy :: wheelEvents t
  | _ :: t => wheelEvents t

/-- Simple rational stand-in for the math oracle of the concrete runs over
    testWorld and scrollWorld.  It is exact at the arguments that those
    runs' stated conclusions depend on (sqrt 40000 = 200, sqrt 4 = 2,
    cos 0 = 1, and log (1/8) = -2, within four percent of the real
    -2.079); the remaining entries are arbitrary defaults, and each closed
    theorem stated over this oracle draws a conclusion that holds with a
    margin absorbing their replacement by the real values. -/
def testEnv : MathEnv :=
  { sqrt := fun q => if q = 40000 then 200 else if q = 4 then 2 else 0
    log := fun q => if q = 1/8 then -2 else 0
    log2 := fun _ => 0
    log10 := fun _ => 0
    sin := fun _ => -(1/2)
    cos := fun _ => 1
    atan2 := fun _ _ => 0
    powf := fun _ _ => 0
    pi := 3 }

/-- Driver oracle for the concrete runs: a stable 50 by 50 box at (10,10),
    window scrolling, a never-clickable element, an always-accepting
    pointer. -/
def testPage : PageO :=
  { viewport := fun _ => .ok ⟨1000, 1000, 0, 0, 2000, 2000⟩
    bbox := fun _ => .ok ⟨10, 10, 50, 50⟩
    clickable := fun _ => false
    container := fun _ => none
    inContainer := fun _ => true
    scrollInfoQ := fun _ => none
    scrollYq := fun _ => 0
    containerScroll := fun _ => 0
    hasAnimations := fun _ => false
    stableEval := fun _ => true
    moveOk := fun _ => true
    preSt := fun _ => some 0 }

/-- Concrete world with the constant one-half random stream. -/
def testWorld : World := { env := testEnv, rng := fun _ => 1/2, page := testPage }

/-- Concrete world whose stream fires the micro-scroll branch (first draw 0)
    and then produces a large Gaussian (u = 1/8, v = 0). -/
def scrollWorld : World :=
  { env := testEnv
    rng := fun k => if k = 0 then 0 else if k = 1 then 7/8 else 0
    page := testPage }

/-- First-revision engine state used by the concrete runs: attentionSpan
    0.95, cursor at (100,100), fresh cached 1000 by 1000 viewport. -/
def testSt1 : V1.St :=
  { k := 0, q := 0, clock := 0, lastPos := some ⟨100, 100⟩, lastMoveTime := 0, history := [],
    cachedViewport := some ⟨1000, 1000, 0, 0, 2000, 2000⟩, viewportCacheTime := 0,
    cfg := V1.initConfig (7/10) }

/-- Second-revision engine state used by the concrete runs: attentionSpan
    0.95, cursor at (60,60), fresh cached 800 by 600 viewport. -/
def testSt2 : V2.St :=
  { k := 0, q := 0, clock := 0, lastPos := ⟨60, 60⟩, lastMoveTime := 0, history := [],
    cachedViewport := some ⟨800, 600, 0, 0, 0, 0⟩, viewportCacheTime := 0,
    cfg := V2.initConfig (2/3) }

/-- Math oracle for the c1 run.  Every entry agrees with the real function
    at each argument that run evaluates: sqrt 25 = 5 and log 1 = 0 are
    exact (the run's Gaussian u-draws are all 0, so u = 1 and every
    Gaussian is exactly zero in IEEE arithmetic as well); cos is evaluated
    only at pi, where the real value is exactly -1; sin only at 8 * pi,
    where the real value is within 3e-6 of 0; log2 only at 21/20, where
    0.0704 is the real value to three decimals (it only feeds the point
    count that the run's numPoints option overrides). -/
def c1Env : MathEnv :=
  { sqrt := fun q => if q = 25 then 5 else 0
    log := fun _ => 0
    log2 := fun q => if q = 21/20 then 704/10000 else 0
    log10 := fun _ => 0
    sin := fun _ => 0
    cos := fun _ => -1
    atan2 := fun _ _ => 0
    powf := fun _ _ => 0
    pi := 355/113 }

/-- World of the c1 run: draws 7 and 8 (the easing micro-variation and
    tremor draws of the final sample) are 0, draws 10 and 12 (the two
    jitter Gaussians' u-draws) are 0, and every other draw is one half. -/
def c1World : World :=
  { env := c1Env
    rng := fun k => if k = 7 ∨ k = 8 ∨ k = 10 ∨ k = 12 then 0 else 1/2
    page := testPage }

/-- First-revision engine of the c1 run: constructor draw 3/4 (exactly
    representable, attentionSpan 0.955, robustly above both the 0.92 and
    the 0.95 branch thresholds), cursor at (0,0). -/
def c1St : V1.St := { V1.initSt (3/4) with lastPos := some ⟨0, 0⟩ }

/-- Math.log is finite only for positive arguments; for zero or negative
    arguments JS yields -Infinity or NaN, modeled as none. -/
def jsLogO (env : MathEnv) (q : ℚ) : Option ℚ := if 0 < q then some (env.log q) else none

/-- Math.sqrt is a number only for nonnegative arguments; for negative
    arguments JS yields NaN, modeled as none. -/
def jsSqrtO (env : MathEnv) (q : ℚ) : Option ℚ := if 0 ≤ q then some (env.sqrt q) else none

/-- Domain-tracking randomGaussian (lines 1573-1578 and 2503-2508, the same
    text in both revisions): the Box-Muller computation with the partiality
    of Math.log and Math.sqrt made explicit. -/
def randomGaussianDom (env : MathEnv) (mean stdDev r1 r2 : ℚ) : Option ℚ :=
  (jsLogO env (1 - r1)).bind fun lg =>
    (jsSqrtO env (-(2 : ℚ) * lg)).bind fun sq =>
      some (sq * env.cos (2 * env.pi * r2) * stdDev + mean)

/-- A sample within the first revision's clamp range [0,w-1] x [0,h-1]. -/
def PtIn1 (vp : Viewport) (p : Pt) : Prop :=
  0 ≤ p.x ∧ p.x ≤ vp.width - 1 ∧ 0 ≤ p.y ∧ p.y ≤ vp.height - 1

/-- A sample within the second revision's clamp range [0,w] x [0,h]. -/
def PtIn2 (vp : Viewport) (p : Pt) : Prop :=
  0 ≤ p.x ∧ p.x ≤ vp.width ∧ 0 ≤ p.y ∧ p.y ≤ vp.height

theorem M.run_pure {σ α : Type} (a : α) (w : World) (s : σ) :
    (pure a : M σ α) w s = (a, s, []) := rfl

theorem M.run_bind {σ α β : Type} (m : M σ α) (f : α → M σ β) (w : World) (s : σ) :
    (m >>= f) w s =
      ((f (m w s).1 w (m w s).2.1).1,
       (f (m w s).1 w (m w s).2.1).2.1,
       (m w s).2.2 ++ (f (m w s).1 w (m w s).2.1).2.2) := rfl

theorem MF.run_bind_ok {σ α β : Type} (m : MF σ α) (f : α → MF σ β) (w : World) (s : σ)
    (a : α) (s1 : σ) (t1 : List Ev) (h : m w s = (.ok a, s1, t1)) :
    (m >>= f) w s = ((f a w s1).1, (f a w s1).2.1, t1 ++ (f a w s1).2.2) := by
  show (match m w s with
    | (.ok a, s1, t1) => ((f a w s1).1, (f a w s1).2.1, t1 ++ (f a w s1).2.2)
    | (.error e, s1, t1) => ((.error e : Except String β), s1, t1)) = _
  rw [h]

theorem MF.run_bind_err {σ α β : Type} (m : MF σ α) (f : α → MF σ β) (w : World) (s : σ)
    (e : String) (s1 : σ) (t1 : List Ev) (h : m w s = (.error e, s1, t1)) :
    (m >>= f) w s = (.error e, s1, t1) := by
  show (match m w s with
    | (.ok a, s1, t1) => ((f a w s1).1, (f a w s1).2.1, t1 ++ (f a w s1).2.2)
    | (.error e, s1, t1) => ((.error e : Except String β), s1, t1)) = _
  rw [h]

theorem clamp_le (v lo hi : ℚ) (h : lo ≤ hi) : lo ≤ clamp v lo hi ∧ clamp v lo hi ≤ hi := by
  constructor
  · exact le_max_left _ _
  · exact max_le h (min_le_right _ _)

theorem M.run_bind_val {σ α β : Type} (m : M σ α) (g : α → M σ β) (w : World) (s : σ) :
    ((m >>= g) w s).1 = (g (m w s).1 w (m w s).2.1).1 := rfl

theorem M.run_bind_st {σ α β : Type} (m : M σ α) (g : α → M σ β) (w : World) (s : σ) :
    ((m >>= g) w s).2.1 = (g (m w s).1 w (m w s).2.1).2.1 := rfl

theorem M.run_bind_tr {σ α β : Type} (m : M σ α) (g : α → M σ β) (w : World) (s : σ) :
    ((m >>= g) w s).2.2 = (m w s).2.2 ++ (g (m w s).1 w (m w s).2.1).2.2 := rfl

theorem M.run_pure_val {σ α : Type} (a : α) (w : World) (s : σ) :
    ((pure a : M σ α) w s).1 = a := rfl

theorem M.run_pure_st {σ α : Type} (a : α) (w : World) (s : σ) :
    ((pure a : M σ α) w s).2.1 = s := rfl

theorem M.run_pure_tr {σ α : Type} (a : α) (w : World) (s : σ) :
    ((pure a : M σ α) w s).2.2 = [] := rfl

theorem M.bind_congr_run {σ α β : Type} (m : M σ α) (g g' : α → M σ β) (w : World) (s : σ)
    (h : ∀ a s', g a w s' = g' a w s') : (m >>= g) w s = (m >>= g') w s := by
  show ((g (m w s).1 w (m w s).2.1).1, (g (m w s).1 w (m w s).2.1).2.1,
        (m w s).2.2 ++ (g (m w s).1 w (m w s).2.1).2.2) = _
  rw [h]
  rfl

theorem moveEvents_append (a b : List Ev) :
    moveEvents (a ++ b) = moveEvents a ++ moveEvents b := by
  induction a with
  | nil => rfl
  | cons e t ih => cases e <;> simp [moveEvents, ih]

theorem wheelEvents_append (a b : List Ev) :
    wheelEvents (a ++ b) = wheelEvents a ++ wheelEvents b := by
  induction a with
  | nil => rfl
  | cons e t ih => cases e <;> simp [wheelEvents, ih]

theorem jsRound_mono {x y : ℚ} (h : x ≤ y) : jsRound x ≤ jsRound y := by
  unfold jsRound
  exact_mod_cast Int.floor_le_floor (by linarith)

theorem jsRound_intCast (v : ℤ) : jsRound (v : ℚ) = (v : ℚ) := by
  have h12 : ⌊(1/2 : ℚ)⌋ = 0 := by norm_num
  have : ⌊(v : ℚ) + 1/2⌋ = v := by
    rw [add_comm, Int.floor_add_int, h12, zero_add]
  rw [jsRound, this]

/-- C9: the cubic Bezier evaluator getBezierPoint satisfies the endpoint
    identities exactly: at parameter 0 it returns the first control point
    and at parameter 1 the last. -/
theorem c9_bezier_endpoints (p0 p1 p2 p3 : Pt) :
    getBezierPoint 0 p0 p1 p2 p3 = p0 ∧ getBezierPoint 1 p0 p1 p2 p3 = p3 := by
  obtain ⟨x0, y0⟩ := p0
  obtain ⟨x1, y1⟩ := p1
  obtain ⟨x2, y2⟩ := p2
  obtain ⟨x3, y3⟩ := p3
  constructor <;> simp [getBezierPoint]

/-- C10: randomGaussian is well defined for every draw pair with the first
    draw in [0,1): the intermediate u = 1 - r is strictly positive, so the
    Math.log argument is inside its domain and the Math.sqrt argument is
    nonnegative (for any log oracle that is nonpositive on (0,1], as the
    real logarithm is), and the domain-tracking computation returns exactly
    the value the engine's randomGaussian produces. -/
theorem c10_randomGaussian_finite (w : World) (s : V1.St) (mean stdDev : ℚ)
    (h0 : 0 ≤ w.rng s.k) (h1 : w.rng s.k < 1)
    (hlog : ∀ q : ℚ, 0 < q → q ≤ 1 → w.env.log q ≤ 0) :
    0 < 1 - w.rng s.k ∧
    randomGaussianDom w.env mean stdDev (w.rng s.k) (w.rng (s.k + 1)) =
      some ((V1.randomGaussian mean stdDev) w s).1 := by
  have hu : 0 < 1 - w.rng s.k := by linarith
  have hl : w.env.log (1 - w.rng s.k) ≤ 0 := hlog _ hu (by linarith)
  refine ⟨hu, ?_⟩
  rw [randomGaussianDom, jsLogO, if_pos hu, Option.some_bind, jsSqrtO,
    if_pos (by linarith), Option.some_bind]
  rfl

/-- Witness for C10 at the concrete world and state. -/
theorem c10_witness :
    0 < 1 - testWorld.rng testSt1.k ∧
    randomGaussianDom testWorld.env 5 2 (testWorld.rng testSt1.k)
        (testWorld.rng (testSt1.k + 1)) =
      some ((V1.randomGaussian 5 2) testWorld testSt1).1 :=
  c10_randomGaussian_finite testWorld testSt1 5 2 (by norm_num [testWorld])
    (by norm_num [testWorld])
    (by
      intro q hq0 hq1
      show testEnv.log q ≤ 0
      simp only [testEnv]
      split <;> norm_num)

/-- C5 as stated is false for fractional base values: with the default
    configuration and base value 0.4, applyFatigue returns 0.4 at
    actionCount 20 but round(0.4 * 1.0009) = 0 at actionCount 21, although
    20 and 21 are both below the maxFatigue ceiling. -/
theorem c5_counterexample :
    (20 : ℤ) ≤ 21 ∧ ((21 : ℤ) : ℚ) ≤ testSt1.cfg.maxFatigue ∧
    0 < testSt1.cfg.fatigueThreshold ∧
    ¬ ((V1.applyFatigue (2/5) testWorld
          { testSt1 with cfg := { testSt1.cfg with actionCount := 20 } }).1 ≤
       (V1.applyFatigue (2/5) testWorld
          { testSt1 with cfg := { testSt1.cfg with actionCount := 21 } }).1) := by
  refine ⟨by decide, by with_unfolding_all decide, by with_unfolding_all decide, ?_⟩
  with_unfolding_all decide

theorem applyFatigueP_val_mono_v1 (c : V1.Config) (v : ℤ) (hv : 0 ≤ v) (a b : ℤ)
    (hab : a ≤ b) (hth : 0 < c.fatigueThreshold) (hmax : (b : ℚ) ≤ c.maxFatigue) :
    (V1.applyFatigueP { c with actionCount := a } (v : ℚ)).1 ≤
      (V1.applyFatigueP { c with actionCount := b } (v : ℚ)).1 := by
  have hba : (a : ℚ) ≤ (b : ℚ) := by exact_mod_cast hab
  have hvq : (0 : ℚ) ≤ (v : ℚ) := by exact_mod_cast hv
  have hmaxa : (a : ℚ) ≤ c.maxFatigue := le_trans hba hmax
  simp only [V1.applyFatigueP, gt_iff_lt]
  by_cases he : c.fatigueEnabled
  case neg => simp [he]
  case pos =>
    simp only [he, Bool.not_true, Bool.false_eq_true, if_false,
      if_neg (not_lt.mpr hmaxa), if_neg (not_lt.mpr hmax)]
    by_cases ha : c.fatigueThreshold < (a : ℚ) <;>
      by_cases hb : c.fatigueThreshold < (b : ℚ)
    · rw [if_pos ha, if_pos hb]
      apply jsRound_mono
      apply mul_le_mul_of_nonneg_left _ hvq
      apply min_le_min _ (le_refl _)
      have hd : ((a : ℚ) - c.fatigueThreshold) / c.fatigueThreshold ≤
          ((b : ℚ) - c.fatigueThreshold) / c.fatigueThreshold := by
        apply div_le_div_of_nonneg_right (by linarith)
        exact le_of_lt hth
      linarith
    · exact absurd (lt_of_lt_of_le ha hba) hb
    · rw [if_neg ha, if_pos hb]
      have hf1 : (1 : ℚ) ≤
          min (1 + ((b : ℚ) - c.fatigueThreshold) / c.fatigueThreshold * 0.018) 1.45 := by
        apply le_min _ (by norm_num)
        have h0 : (0 : ℚ) ≤ ((b : ℚ) - c.fatigueThreshold) / c.fatigueThreshold :=
          div_nonneg (by linarith) (le_of_lt hth)
        linarith
      calc (v : ℚ) = jsRound (v : ℚ) := (jsRound_intCast v).symm
        _ ≤ _ := jsRound_mono (le_mul_of_one_le_right hvq hf1)
    · rw [if_neg ha, if_neg hb]

theorem applyFatigueP_val_mono_v2 (c : V2.Config) (v : ℤ) (hv : 0 ≤ v) (a b : ℤ)
    (hab : a ≤ b) :
    V2.applyFatigueP { c with actionCount := a } (v : ℚ) ≤
      V2.applyFatigueP { c with actionCount := b } (v : ℚ) := by
  have hba : (a : ℚ) ≤ (b : ℚ) := by exact_mod_cast hab
  have hvq : (0 : ℚ) ≤ (v : ℚ) := by exact_mod_cast hv
  simp only [V2.applyFatigueP, gt_iff_lt]
  by_cases he : c.fatigueEnabled
  case neg => simp [he]
  case pos =>
    simp only [he, Bool.not_true, Bool.false_eq_true, if_false]
    by_cases ha : c.fatigueThreshold < (a : ℚ) <;>
      by_cases hb : c.fatigueThreshold < (b : ℚ)
    · rw [if_pos ha, if_pos hb]
      apply jsRound_mono
      apply mul_le_mul_of_nonneg_left _ hvq
      apply min_le_min _ (le_refl _)
      linarith
    · exact absurd (lt_of_lt_of_le ha hba) hb
    · rw [if_neg ha, if_pos hb]
      have hf1 : (1 : ℚ) ≤ min (1 + ((b : ℚ) - c.fatigueThreshold) * 0.02) 1.5 := by
        apply le_min _ (by norm_num)
        linarith
      calc (v : ℚ) = jsRound (v : ℚ) := (jsRound_intCast v).symm
        _ ≤ _ := jsRound_mono (le_mul_of_one_le_right hvq hf1)
    · rw [if_neg ha, if_neg hb]

/-- C5 amended: holding all other state fixed and with a positive
    threshold, the value returned by applyFatigue is monotonically
    non-decreasing in actionCount for every nonnegative integer base value,
    in both revisions (in the first up to the maxFatigue ceiling). -/
theorem c5_applyFatigue_monotone (w : World) (s1 : V1.St) (s2 : V2.St) (v : ℤ)
    (hv : 0 ≤ v) (a b : ℤ) (hab : a ≤ b)
    (hth : 0 < s1.cfg.fatigueThreshold) (hmax : (b : ℚ) ≤ s1.cfg.maxFatigue) :
    (V1.applyFatigue (v : ℚ) w { s1 with cfg := { s1.cfg with actionCount := a } }).1 ≤
      (V1.applyFatigue (v : ℚ) w { s1 with cfg := { s1.cfg with actionCount := b } }).1 ∧
    (V2.applyFatigue (v : ℚ) w { s2 with cfg := { s2.cfg with actionCount := a } }).1 ≤
      (V2.applyFatigue (v : ℚ) w { s2 with cfg := { s2.cfg with actionCount := b } }).1 :=
  ⟨applyFatigueP_val_mono_v1 s1.cfg v hv a b hab hth hmax,
   applyFatigueP_val_mono_v2 s2.cfg v hv a b hab⟩

/-- Witness for C5 at the default configuration, actionCount 10 and 30,
    base value 20. -/
theorem c5_witness :
    (V1.applyFatigue ((20 : ℤ) : ℚ) testWorld
        { testSt1 with cfg := { testSt1.cfg with actionCount := 10 } }).1 ≤
      (V1.applyFatigue ((20 : ℤ) : ℚ) testWorld
        { testSt1 with cfg := { testSt1.cfg with actionCount := 30 } }).1 ∧
    (V2.applyFatigue ((20 : ℤ) : ℚ) testWorld
        { testSt2 with cfg := { testSt2.cfg with actionCount := 10 } }).1 ≤
      (V2.applyFatigue ((20 : ℤ) : ℚ) testWorld
        { testSt2 with cfg := { testSt2.cfg with actionCount := 30 } }).1 :=
  c5_applyFatigue_monotone testWorld testSt1 testSt2 20 (by decide) 10 30 (by decide)
    (by with_unfolding_all decide) (by with_unfolding_all decide)

set_option maxRecDepth 40000 in
/-- C3: the code contradicts its own inline documentation (up to 40
    percent): after 44 recorded actions a single applyFatigue call sets
    fatigueMultiplier to 1.48, above the documented cap (and it can reach
    2.6 at actionCount 100). -/
theorem c3_fatigue_cap_exceeded :
    (V1.runOps (List.replicate 44 .record ++ [.fatigue 10]) testWorld
       (V1.initSt (1/2))).2.1.cfg.fatigueMultiplier = 37/25 ∧
    ¬ ((37 : ℚ)/25 ≤ 1.45) := by
  constructor
  · with_unfolding_all rfl
  · norm_num

theorem uacP_attention_v1 (c : V1.Config) (r : ℚ)
    (hmin : c.minAttentionSpan = 0.80) (h1 : c.attentionSpan ≤ 0.98) :
    (V1.updateActionCountP c r).minAttentionSpan = 0.80 ∧
    0.80 ≤ (V1.updateActionCountP c r).attentionSpan ∧
    (V1.updateActionCountP c r).attentionSpan ≤ 0.98 := by
  simp only [V1.updateActionCountP]
  split
  case isTrue h =>
    refine ⟨hmin, ?_, ?_⟩
    · show (0.80 : ℚ) ≤ max c.minAttentionSpan (min 0.96 (c.attentionSpan + 0.04) - 0.0008)
      rw [hmin]
      exact le_max_left _ _
    · show max c.minAttentionSpan (min 0.96 (c.attentionSpan + 0.04) - 0.0008) ≤ 0.98
      rw [hmin]
      apply max_le (by norm_num)
      have := min_le_left (0.96 : ℚ) (c.attentionSpan + 0.04)
      linarith
  case isFalse h =>
    refine ⟨hmin, ?_, ?_⟩
    · show (0.80 : ℚ) ≤ max c.minAttentionSpan (c.attentionSpan - 0.0008)
      rw [hmin]
      exact le_max_left _ _
    · show max c.minAttentionSpan (c.attentionSpan - 0.0008) ≤ 0.98
      rw [hmin]
      apply max_le (by norm_num)
      linarith

theorem uacP_attention_v2 (c : V2.Config) (h1 : c.attentionSpan ≤ 1) :
    0.85 ≤ (V2.updateActionCountP c).attentionSpan ∧
    (V2.updateActionCountP c).attentionSpan ≤ 1 := by
  simp only [V2.updateActionCountP]
  split
  case isTrue h =>
    refine ⟨le_max_left _ _, ?_⟩
    show max 0.85 (min 1 (c.attentionSpan + 0.05) - 0.001) ≤ 1
    apply max_le (by norm_num)
    have := min_le_left (1 : ℚ) (c.attentionSpan + 0.05)
    linarith
  case isFalse h =>
    refine ⟨le_max_left _ _, ?_⟩
    show max 0.85 (c.attentionSpan - 0.001) ≤ 1
    apply max_le (by norm_num)
    linarith

theorem v1_records_attention (w : World) :
    ∀ (n : ℕ) (s : V1.St), s.cfg.minAttentionSpan = 0.80 →
      0.80 ≤ s.cfg.attentionSpan → s.cfg.attentionSpan ≤ 0.98 →
      (V1.runOps (List.replicate n .record) w s).2.1.cfg.minAttentionSpan = 0.80 ∧
      0.80 ≤ (V1.runOps (List.replicate n .record) w s).2.1.cfg.attentionSpan ∧
      (V1.runOps (List.replicate n .record) w s).2.1.cfg.attentionSpan ≤ 0.98 := by
  intro n
  induction n with
  | zero => intro s hm h0 h1; exact ⟨hm, h0, h1⟩
  | succ k ih =>
    intro s hm h0 h1
    have hstep := uacP_attention_v1 s.cfg (w.rng s.k) hm h1
    exact ih _ hstep.1 hstep.2.1 hstep.2.2

theorem v2_records_attention (w : World) :
    ∀ (n : ℕ) (s : V2.St), 0.85 ≤ s.cfg.attentionSpan → s.cfg.attentionSpan ≤ 1 →
      0.85 ≤ (V2.runOps (List.replicate n .record) w s).2.1.cfg.attentionSpan ∧
      (V2.runOps (List.replicate n .record) w s).2.1.cfg.attentionSpan ≤ 1 := by
  intro n
  induction n with
  | zero => intro s h0 h1; exact ⟨h0, h1⟩
  | succ k ih =>
    intro s h0 h1
    have hstep := uacP_attention_v2 s.cfg h1
    exact ih _ hstep.1 hstep.2

/-- C4 as stated is false for the second revision: a freshly constructed
    engine with constructor draw 0.9 starts with attentionSpan 0.9850,
    above 0.98, after zero recorded actions. -/
theorem c4_counterexample :
    0 ≤ (9/10 : ℚ) ∧ (9/10 : ℚ) < 1 ∧
    ¬ ((V2.runOps (List.replicate 0 .record) testWorld
          (V2.initSt (9/10))).2.1.cfg.attentionSpan ≤ 0.98) := by
  refine ⟨by norm_num, by norm_num, ?_⟩
  with_unfolding_all decide

/-- C4 amended: starting from a freshly constructed engine, after any
    number of recordAction calls, attentionSpan stays within [0.80, 0.98]
    in the first revision and within [0.85, 1] in the second (whose
    constructor range is 0.85 to 1 and whose floor is 0.85). -/
theorem c4_attention_bounds (w : World) (r : ℚ) (h0 : 0 ≤ r) (h1 : r < 1) (n : ℕ) :
    (0.80 ≤ (V1.runOps (List.replicate n .record) w (V1.initSt r)).2.1.cfg.attentionSpan ∧
     (V1.runOps (List.replicate n .record) w (V1.initSt r)).2.1.cfg.attentionSpan ≤ 0.98) ∧
    (0.85 ≤ (V2.runOps (List.replicate n .record) w (V2.initSt r)).2.1.cfg.attentionSpan ∧
     (V2.runOps (List.replicate n .record) w (V2.initSt r)).2.1.cfg.attentionSpan ≤ 1) := by
  have hr1 : (0 : ℚ) ≤ r * 0.10 := by positivity
  have hr2 : (0 : ℚ) ≤ r * 0.15 := by positivity
  have hv1 := v1_records_attention w n (V1.initSt r) rfl
    (by show (0.80 : ℚ) ≤ 0.88 + r * 0.10; linarith)
    (by show (0.88 : ℚ) + r * 0.10 ≤ 0.98; nlinarith)
  have hv2 := v2_records_attention w n (V2.initSt r)
    (by show (0.85 : ℚ) ≤ r * 0.15 + 0.85; linarith)
    (by show r * 0.15 + (0.85 : ℚ) ≤ 1; nlinarith)
  exact ⟨⟨hv1.2.1, hv1.2.2⟩, hv2⟩

/-- Witness for C4 at the concrete draw one half and three recorded
    actions. -/
theorem c4_witness :
    (0.80 ≤ (V1.runOps (List.replicate 3 .record) testWorld
        (V1.initSt (1/2))).2.1.cfg.attentionSpan ∧
     (V1.runOps (List.replicate 3 .record) testWorld
        (V1.initSt (1/2))).2.1.cfg.attentionSpan ≤ 0.98) ∧
    (0.85 ≤ (V2.runOps (List.replicate 3 .record) testWorld
        (V2.initSt (1/2))).2.1.cfg.attentionSpan ∧
     (V2.runOps (List.replicate 3 .record) testWorld
        (V2.initSt (1/2))).2.1.cfg.attentionSpan ≤ 1) :=
  c4_attention_bounds testWorld (1/2) (by norm_num) (by norm_num) 3

theorem M.bind_congr_left {σ α β : Type} (m m' : M σ α) (g : α → M σ β) (w : World) (s : σ)
    (h : m w s = m' w s) : (m >>= g) w s = (m' >>= g) w s := by
  show ((g (m w s).1 w (m w s).2.1).1, (g (m w s).1 w (m w s).2.1).2.1,
        (m w s).2.2 ++ (g (m w s).1 w (m w s).2.1).2.2) = _
  rw [h]
  rfl

set_option maxHeartbeats 2000000 in
theorem hOv_prob_zero_v1 (f f' : ℕ) (sx sy tx ty : ℚ) (box : Option BBox)
    (vp : Viewport) (pts : List Pt) (opts : Opts) (D W : ℚ) (w : World)
    (hp : opts.overshootProb = some 0) (hr : ∀ n, 0 ≤ w.rng n) (s : V1.St) :
    V1.handleRealisticOvershoot f sx sy tx ty box vp pts opts D W w s =
      V1.handleRealisticOvershoot f' sx sy tx ty box vp pts opts D W w s := by
  simp only [V1.handleRealisticOvershoot, V1.handleRealisticOvershootGo, hp,
    Option.getD_some, zero_mul]
  simp only [M.run_bind]
  split
  · simp only [M.run_bind]
    rw [if_neg (fun hc => absurd hc.1 (not_lt.mpr (hr _))),
        if_neg (fun hc => absurd hc.1 (not_lt.mpr (hr _)))]
  · rfl

set_option maxHeartbeats 2000000 in
theorem hOv_prob_zero_v2 (f f' : ℕ) (sx sy tx ty : ℚ) (box : Option BBox)
    (vp : Viewport) (pts : List Pt) (opts : Opts) (D W : ℚ) (w : World)
    (hp : opts.overshootProb = some 0) (hr : ∀ n, 0 ≤ w.rng n) (s : V2.St) :
    V2.handleOvershoot f sx sy tx ty box vp pts opts D W w s =
      V2.handleOvershoot f' sx sy tx ty box vp pts opts D W w s := by
  simp only [V2.handleOvershoot, V2.handleOvershootGo, hp, Option.getD_some]
  simp only [M.run_bind]
  split
  · simp only [M.run_bind]
    rw [if_neg (fun hc => absurd hc.1 (not_lt.mpr (hr _))),
        if_neg (fun hc => absurd hc.1 (not_lt.mpr (hr _)))]
  · rfl

set_option maxHeartbeats 2000000 in
theorem calc_prob_zero_v1 (f f' : ℕ) (sx sy tx ty : ℚ) (box : Option BBox)
    (vp : Viewport) (opts : Opts) (w : World)
    (hp : opts.overshootProb = some 0) (hr : ∀ n, 0 ≤ w.rng n) (s : V1.St) :
    V1.calculateHumanBezierPoints (f + 1) sx sy tx ty box vp opts w s =
      V1.calculateHumanBezierPoints (f' + 1) sx sy tx ty box vp opts w s := by
  simp only [V1.calculateHumanBezierPoints.eq_def]
  apply M.bind_congr_run
  intro env s1
  apply M.bind_congr_run
  intro c0 s2
  apply M.bind_congr_run
  intro bnp s3
  apply M.bind_congr_run
  intro ctrl s4
  apply M.bind_congr_run
  intro c1 s5
  split
  · apply M.bind_congr_run
    intro m s6
    apply M.bind_congr_run
    intro y s7
    apply M.bind_congr_run
    intro c2 s8
    apply M.bind_congr_run
    intro points s9
    apply M.bind_congr_left
    exact hOv_prob_zero_v1 f f' sx sy tx ty box vp points opts _ _ w hp hr s9
  · apply M.bind_congr_run
    intro y s6
    apply M.bind_congr_run
    intro c2 s7
    apply M.bind_congr_run
    intro points s8
    apply M.bind_congr_left
    exact hOv_prob_zero_v1 f f' sx sy tx ty box vp points opts _ _ w hp hr s8

set_option maxHeartbeats 2000000 in
theorem calc_prob_zero_v2 (f f' : ℕ) (sx sy tx ty : ℚ) (box : Option BBox)
    (vp : Viewport) (opts : Opts) (w : World)
    (hp : opts.overshootProb = some 0) (hr : ∀ n, 0 ≤ w.rng n) (s : V2.St) :
    V2.calculateBezierPoints (f + 1) sx sy tx ty box vp opts w s =
      V2.calculateBezierPoints (f' + 1) sx sy tx ty box vp opts w s := by
  simp only [V2.calculateBezierPoints.eq_def]
  apply M.bind_congr_run
  intro env s1
  apply M.bind_congr_run
  intro bnp s2
  apply M.bind_congr_run
  intro ctrl s3
  apply M.bind_congr_run
  intro points s4
  exact hOv_prob_zero_v2 f f' sx sy tx ty box vp points opts _ _ w hp hr s4

set_option maxHeartbeats 2000000 in
theorem hOv_fuel_v1 (a b : ℕ) (sx sy tx ty : ℚ) (box : Option BBox)
    (vp : Viewport) (pts : List Pt) (opts : Opts) (D W : ℚ) (w : World)
    (hr : ∀ n, 0 ≤ w.rng n) (s : V1.St) :
    V1.handleRealisticOvershoot (a + 1) sx sy tx ty box vp pts opts D W w s =
      V1.handleRealisticOvershoot (b + 1) sx sy tx ty box vp pts opts D W w s := by
  simp only [V1.handleRealisticOvershoot, V1.handleRealisticOvershootGo]
  apply M.bind_congr_run
  intro env s1
  apply M.bind_congr_run
  intro c s2
  split
  · apply M.bind_congr_run
    intro r s3
    split
    · apply M.bind_congr_run
      intro rf s4
      apply M.bind_congr_left
      exact calc_prob_zero_v1 a b sx sy _ _ box vp _ w rfl hr s4
    · rfl
  · rfl

set_option maxHeartbeats 2000000 in
theorem hOv_fuel_v2 (a b : ℕ) (sx sy tx ty : ℚ) (box : Option BBox)
    (vp : Viewport) (pts : List Pt) (opts : Opts) (D W : ℚ) (w : World)
    (hr : ∀ n, 0 ≤ w.rng n) (s : V2.St) :
    V2.handleOvershoot (a + 1) sx sy tx ty box vp pts opts D W w s =
      V2.handleOvershoot (b + 1) sx sy tx ty box vp pts opts D W w s := by
  simp only [V2.handleOvershoot, V2.handleOvershootGo]
  apply M.bind_congr_run
  intro c s1
  split
  · apply M.bind_congr_run
    intro r s2
    split
    · apply M.bind_congr_run
      intro env s3
      apply M.bind_congr_run
      intro rf s4
      apply M.bind_congr_left
      exact calc_prob_zero_v2 a b sx sy _ _ box vp _ w rfl hr s4
    · rfl
  · rfl

set_option maxHeartbeats 2000000 in
/-- C8: the overshoot recursion is bounded to depth one in both revisions:
    because the inner trajectory call of the overshoot handler forces its
    overshootProb to 0 and a draw is never below 0, any recursion fuel of at
    least two produces exactly the same run as fuel two, so the generation
    terminates after one overshoot level. -/
theorem c8_overshoot_depth_one (w : World) (hr : ∀ n, 0 ≤ w.rng n) (f : ℕ)
    (sx sy tx ty : ℚ) (box : Option BBox) (vp : Viewport) (opts : Opts)
    (s1 : V1.St) (s2 : V2.St) :
    V1.calculateHumanBezierPoints (f + 2) sx sy tx ty box vp opts w s1 =
      V1.calculateHumanBezierPoints 2 sx sy tx ty box vp opts w s1 ∧
    V2.calculateBezierPoints (f + 2) sx sy tx ty box vp opts w s2 =
      V2.calculateBezierPoints 2 sx sy tx ty box vp opts w s2 := by
  constructor
  · simp only [V1.calculateHumanBezierPoints.eq_def]
    apply M.bind_congr_run
    intro env t1
    apply M.bind_congr_run
    intro c0 t2
    apply M.bind_congr_run
    intro bnp t3
    apply M.bind_congr_run
    intro ctrl t4
    apply M.bind_congr_run
    intro c1 t5
    split
    · apply M.bind_congr_run
      intro m t6
      apply M.bind_congr_run
      intro y t7
      apply M.bind_congr_run
      intro c2 t8
      apply M.bind_congr_run
      intro points t9
      apply M.bind_congr_left
      exact hOv_fuel_v1 f 0 sx sy tx ty box vp points opts _ _ w hr t9
    · apply M.bind_congr_run
      intro y t6
      apply M.bind_congr_run
      intro c2 t7
      apply M.bind_congr_run
      intro points t8
      apply M.bind_congr_left
      exact hOv_fuel_v1 f 0 sx sy tx ty box vp points opts _ _ w hr t8
  · simp only [V2.calculateBezierPoints.eq_def]
    apply M.bind_congr_run
    intro env t1
    apply M.bind_congr_run
    intro bnp t2
    apply M.bind_congr_run
    intro ctrl t3
    apply M.bind_congr_run
    intro points t4
    exact hOv_fuel_v2 f 0 sx sy tx ty box vp points opts _ _ w hr t4

/-- C8, witness: fuel three and fuel two runs coincide at the concrete world
    whose random stream is the constant one half. -/
theorem c8_witness :
    V1.calculateHumanBezierPoints 3 100 100 300 100 none ⟨1000, 1000, 0, 0, 2000, 2000⟩ {}
        testWorld testSt1 =
      V1.calculateHumanBezierPoints 2 100 100 300 100 none ⟨1000, 1000, 0, 0, 2000, 2000⟩ {}
        testWorld testSt1 ∧
    V2.calculateBezierPoints 3 100 100 300 100 none ⟨1000, 1000, 0, 0, 2000, 2000⟩ {}
        testWorld testSt2 =
      V2.calculateBezierPoints 2 100 100 300 100 none ⟨1000, 1000, 0, 0, 2000, 2000⟩ {}
        testWorld testSt2 :=
  c8_overshoot_depth_one testWorld (fun _ => by norm_num [testWorld]) 1 100 100 300 100
    none ⟨1000, 1000, 0, 0, 2000, 2000⟩ {} testSt1 testSt2

theorem hOv_finalPos_v1 (fuel : ℕ) (sx sy tx ty : ℚ) (box : Option BBox)
    (vp : Viewport) (pts : List Pt) (opts : Opts) (D W : ℚ) (w : World) (s : V1.St) :
    ((V1.handleRealisticOvershoot fuel sx sy tx ty box vp pts opts D W) w s).1.finalPos
      = ⟨tx, ty⟩ := by
  simp only [V1.handleRealisticOvershoot, V1.handleRealisticOvershootGo, M.run_bind]
  split
  · simp only [M.run_bind]
    split
    · simp only [M.run_bind, M.run_pure]
    · rfl
  · rfl

set_option maxHeartbeats 1000000 in
/-- C1 (amended): the final emitted sample is not forced to the
    destination, because the micro-variation term of multiLayerEasing can
    pull the final eased parameter below one (the clamp only caps it
    above; the tremor term cannot, since sin (8 * pi + r) = sin r is
    nonnegative for r in [0,1)), so the last Bezier sample stops short of
    the endpoint; what the first revision guarantees instead is that the
    returned trajectory's finalPos field and the stored cursor position
    lastPos are exactly the requested destination (the latter clamped to
    the viewport), for every fuel, target, option bag, world and state. -/
theorem c1_final_position_exact (fuel : ℕ) (sx sy tx ty : ℚ) (box : Option BBox)
    (vp : Viewport) (opts : Opts) (w : World) (s s0 : V1.St) :
    ((V1.calculateHumanBezierPoints fuel sx sy tx ty box vp opts) w s).1.finalPos = ⟨tx, ty⟩ ∧
    ((V1.moveToPosition fuel tx ty opts) w s0).2.1.lastPos =
      some ⟨clamp tx 0 ((V1.getViewport w s0).1.width - 1),
            clamp ty 0 ((V1.getViewport w s0).1.height - 1)⟩ := by
  constructor
  · cases fuel with
    | zero =>
      simp only [V1.calculateHumanBezierPoints.eq_def, M.run_bind]
      split
      · rfl
      · rfl
    | succ n =>
      simp only [V1.calculateHumanBezierPoints.eq_def, M.run_bind]
      split
      · simp only [M.run_bind, M.run_pure]
        exact hOv_finalPos_v1 n sx sy tx ty box vp _ opts _ _ w _
      · simp only [M.run_bind, M.run_pure]
        exact hOv_finalPos_v1 n sx sy tx ty box vp _ opts _ _ w _
  · simp only [V1.moveToPosition, M.run_bind]
    split
    · rfl
    · rfl

set_option maxRecDepth 100000 in
/-- C1, counterexample to the claim as stated: a one-point move from (0,0)
    to the in-bounds destination (3,4) emits its final (and only) sample at
    (2.947964976, 3.978914643), not at (3,4).  The micro-variation draw of
    multiLayerEasing is 0, giving variation -0.01, and the tremor draw is 0,
    giving sin (8 * pi) = 0, so the final eased parameter is 0.99 and the
    Bezier sample stops 0.05 pixels short of the endpoint; every Gaussian of
    the run has u-draw 0, hence u = 1, log 1 = 0 and value exactly 0, also
    in real IEEE arithmetic.  The oracle entries match the real functions at
    every argument the run evaluates (see c1Env), and the 0.05-pixel
    shortfall dwarfs the sub-1e-6 rounding of those entries, so the same
    trace through the JavaScript source takes the same branches and also
    misses the destination. -/
theorem c1_counterexample :
    ¬ ((moveEvents (V1.moveToPosition 2 3 4 { numPoints := some 1 }
          c1World c1St).2.2).getLast? = some (3, 4)) := by
  with_unfolding_all decide

theorem MF.run_bind_ofM {σ α β : Type} (m : M σ α) (f : α → MF σ β) (w : World) (s : σ) :
    ((MF.ofM m : MF σ α) >>= f) w s =
      ((f (m w s).1 w (m w s).2.1).1, (f (m w s).1 w (m w s).2.1).2.1,
       (m w s).2.2 ++ (f (m w s).1 w (m w s).2.1).2.2) := rfl

theorem MF.run_bind_fail2 {σ α β : Type} (e : String) (f : α → MF σ β) (w : World) (s : σ) :
    ((MF.fail e : MF σ α) >>= f) w s = (.error e, s, []) := rfl

theorem randomDelay_no_down_v1 (lo hi : ℚ) (w : World) (s : V1.St) :
    Ev.down ∉ ((V1.randomDelay lo hi) w s).2.2 := by
  simp [V1.randomDelay, M.run_bind, M.run_pure, V1.draw, V1.emit, V1.passTime]

theorem clickWaitLoop_no_down (f : ℕ) (a b : ℚ) (w : World) (s : V1.St) :
    Ev.down ∉ ((V1.clickWaitLoop f a b) w s).2.2 := by
  induction f generalizing s with
  | zero => simp [V1.clickWaitLoop, M.run_pure]
  | succ n ih =>
    intro h
    simp only [V1.clickWaitLoop, M.run_bind, V1.timeNow, V1.isElementClickable, V1.query,
      List.nil_append] at h
    split at h
    · simp only [M.run_bind, V1.query, List.nil_append] at h
      split at h
      · simp [M.run_pure] at h
      · simp only [M.run_bind, List.mem_append] at h
        rcases h with h1 | h2
        · exact randomDelay_no_down_v1 _ _ _ _ h1
        · exact ih _ h2
    · simp [M.run_pure] at h

/-- C6 (amended): in the first revision, against a driver whose multi-point
    clickability sampling always reports false, click terminates with the
    Element-is-not-clickable error and its trace contains no pointer press;
    the second revision, which never checks clickability, does press (see the
    counterexample). -/
theorem c6_unclickable_aborts (w : World) (hc : ∀ n, w.page.clickable n = false)
    (fw fs ft : ℕ) (opts : Opts) (s : V1.St) :
    (V1.click fw fs ft opts w s).1 = Except.error "Element is not clickable" ∧
    Ev.down ∉ (V1.click fw fs ft opts w s).2.2 := by
  constructor
  · simp [V1.click, MF.run_bind_ofM, V1.isElementClickable, V1.query, hc,
      MF.run_bind_fail2, V1.timeNow]
  · simp [V1.click, MF.run_bind_ofM, V1.isElementClickable, V1.query, hc,
      MF.run_bind_fail2, V1.timeNow]
    exact clickWaitLoop_no_down fw s.clock (opts.waitTimeout.getD 5000) w s

/-- C6, witness: the amended theorem applied at the concrete never-clickable
    driver and the concrete first-revision state. -/
theorem c6_witness :
    (∀ n, testWorld.page.clickable n = false) ∧
    ((V1.click 2 2 2 {} testWorld testSt1).1 = Except.error "Element is not clickable" ∧
     Ev.down ∉ (V1.click 2 2 2 {} testWorld testSt1).2.2) :=
  ⟨fun _ => rfl, c6_unclickable_aborts testWorld (fun _ => rfl) 2 2 2 {} testSt1⟩

set_option maxRecDepth 200000 in
set_option maxHeartbeats 4000000 in
/-- C6, counterexample to the claim as stated for the second revision: the
    same never-clickable driver does not stop the second revision's click,
    whose trace contains a pointer press. -/
theorem c6_counterexample :
    (∀ n, testWorld.page.clickable n = false) ∧
    Ev.down ∈ (V2.click 2 { numPoints := some 2 } testWorld testSt2).2.2 :=
  ⟨fun _ => rfl, by with_unfolding_all decide⟩

theorem wheelEvents_randomDelay_v1 (lo hi : ℚ) (w : World) (s : V1.St) :
    wheelEvents ((V1.randomDelay lo hi) w s).2.2 = [] := by
  simp [V1.randomDelay, M.run_bind, M.run_pure, V1.draw, V1.emit, V1.passTime, wheelEvents]

theorem wheelEvents_randomDelay_v2 (lo hi : ℚ) (w : World) (s : V2.St) :
    wheelEvents ((V2.randomDelay lo hi) w s).2.2 = [] := by
  simp [V2.randomDelay, M.run_bind, M.run_pure, V2.draw, V2.emit, V2.passTime, wheelEvents]

theorem wheelEvents_getViewportLoop_v1 (n : ℕ) (nowT : ℚ) (w : World) (s : V1.St) :
    wheelEvents ((V1.getViewportLoop n nowT) w s).2.2 = [] := by
  induction n generalizing s with
  | zero => rfl
  | succ k ih =>
    simp only [V1.getViewportLoop, M.run_bind, V1.query, V1.modifyS, M.run_pure,
      List.nil_append]
    cases hr : w.page.viewport s.q <;>
      repeat'
        first
          | rfl
          | split
          | simp only [M.run_bind, wheelEvents_append, wheelEvents_randomDelay_v1, ih, M.run_pure,
              List.nil_append, List.append_nil]

theorem wheelEvents_getViewport_v1 (w : World) (s : V1.St) :
    wheelEvents ((V1.getViewport) w s).2.2 = [] := by
  simp only [V1.getViewport, M.run_bind, V1.timeNow, V1.getS, M.run_pure, List.nil_append]
  cases hv : s.cachedViewport with
  | some v =>
    split
    · rfl
    · exact wheelEvents_getViewportLoop_v1 _ _ _ _
  | none => exact wheelEvents_getViewportLoop_v1 _ _ _ _

theorem wheelEvents_getViewport_v2 (w : World) (s : V2.St) :
    wheelEvents ((V2.getViewport) w s).2.2 = [] := by
  simp only [V2.getViewport, M.run_bind, V2.timeNow, V2.getS, V2.query, V2.modifyS,
    M.run_pure, List.nil_append]
  cases hv : s.cachedViewport with
  | some v =>
    split
    · rfl
    · simp only [M.run_bind, V2.query, V2.modifyS, M.run_pure, List.nil_append]
      cases hq : w.page.viewport s.q <;> rfl
  | none =>
    simp only [M.run_bind, V2.query, V2.modifyS, M.run_pure, List.nil_append]
    cases hq : w.page.viewport s.q <;> rfl

theorem wheelEvents_gebb_v1 (n : ℕ) (w : World) (s : V1.St) :
    wheelEvents ((V1.getElementBoundingBox n) w s).2.2 = [] := by
  induction n generalizing s with
  | zero => rfl
  | succ k ih =>
    simp only [V1.getElementBoundingBox, M.run_bind, V1.query, M.run_pure, List.nil_append]
    cases hr : w.page.bbox s.q <;>
      repeat'
        first
          | rfl
          | split
          | simp only [M.run_bind, wheelEvents_append, wheelEvents_randomDelay_v1, ih,
              M.run_pure, List.nil_append, List.append_nil]

theorem wheelEvents_getScrollContainer_v1 (w : World) (s : V1.St) :
    wheelEvents ((V1.getScrollContainer) w s).2.2 = [] := by
  simp only [V1.getScrollContainer, M.run_bind, V1.query, M.run_pure, List.nil_append]
  cases hc : w.page.container s.q with
  | some info => rfl
  | none =>
    simp only [M.run_bind, wheelEvents_append, wheelEvents_getViewport_v1,
      List.nil_append]
    rfl

theorem wheelEvents_ivp_v1 (buf : ℚ) (w : World) (s : V1.St) :
    wheelEvents ((V1.isElementInViewport buf) w s).2.2 = [] := by
  simp only [V1.isElementInViewport, M.run_bind, wheelEvents_append, wheelEvents_gebb_v1,
    List.nil_append]
  cases hb : (V1.getElementBoundingBox 3 w s).1 <;>
    repeat'
      first
        | rfl
        | split
        | simp only [M.run_bind, wheelEvents_append, wheelEvents_getScrollContainer_v1,
            wheelEvents_getViewport_v1, V1.query, M.run_pure, List.nil_append,
            List.append_nil]

theorem wheelEvents_ivp_v2 (buf : ℚ) (w : World) (s : V2.St) :
    wheelEvents ((V2.isElementInViewport buf) w s).2.2 = [] := by
  simp only [V2.isElementInViewport, M.run_bind, V2.query, M.run_pure, List.nil_append]
  cases hb : w.page.bbox s.q with
  | ok box =>
    simp only [M.run_bind, wheelEvents_append, wheelEvents_getViewport_v2,
      List.nil_append]
    rfl
  | nullR => rfl
  | exn => rfl

/-- C7 (amended): when the in-viewport check with the configured buffer
    succeeds at the state where it runs, scrollToElement emits at most one
    wheel scroll (the micro-adjustment), in both revisions; its magnitude is
    however a Gaussian and can reach 20 or more (see the counterexample). -/
theorem c7_in_viewport_micro_only :
    (∀ (fuel : ℕ) (opts : Opts) (w : World) (s : V1.St),
      (V1.isElementInViewport (opts.visibilityBuffer.getD 50) w
          ((V1.getViewport w s).2.1)).1 = true →
      (wheelEvents (V1.scrollToElement fuel opts w s).2.2).length ≤ 1) ∧
    (∀ (fuel : ℕ) (opts : Opts) (w : World) (s : V2.St),
      (V2.isElementInViewport (opts.visibilityBuffer.getD 50) w
          ((V2.getViewport w s).2.1)).1 = true →
      (wheelEvents (V2.scrollToElement fuel opts w s).2.2).length ≤ 1) := by
  constructor
  · intro fuel opts w s h
    simp only [V1.scrollToElement, MF.run_bind_ofM, MF.ofM, h, eq_self_iff_true, if_true,
      wheelEvents_append, wheelEvents_getViewport_v1, wheelEvents_ivp_v1, List.nil_append,
      List.length_append, List.length_nil]
    simp only [M.run_bind, V1.draw, List.nil_append]
    split
    · simp [V1.randomGaussian, M.run_bind, V1.getEnv, V1.draw, M.run_pure, V1.emit,
        V1.randomDelay, V1.passTime, wheelEvents]
    · simp [M.run_pure, wheelEvents]
  · intro fuel opts w s h
    simp only [V2.scrollToElement, MF.run_bind_ofM, MF.ofM, h, eq_self_iff_true, if_true,
      wheelEvents_append, wheelEvents_getViewport_v2, wheelEvents_ivp_v2, List.nil_append,
      List.length_append, List.length_nil]
    simp only [M.run_bind, V2.draw, List.nil_append]
    split
    · simp [V2.randomGaussian, M.run_bind, V2.getEnv, V2.draw, M.run_pure, V2.emit,
        V2.randomDelay, V2.passTime, wheelEvents]
    · simp [M.run_pure, wheelEvents]

set_option maxRecDepth 40000 in
/-- C7, counterexample to the magnitude bound of the claim as stated: with
    the target fully in view the run emits a single micro-adjustment wheel
    scroll, but its Gaussian magnitude is 24, not strictly below 20 units. -/
theorem c7_counterexample :
    wheelEvents (V1.scrollToElement 2 {} scrollWorld testSt1).2.2 = [24] ∧
    ¬(|(24 : ℚ)| < 20) := by
  with_unfolding_all decide

set_option maxRecDepth 40000 in
/-- C7, witness: the amended theorem applied to both concrete in-viewport
    runs. -/
theorem c7_witness :
    (wheelEvents (V1.scrollToElement 2 {} scrollWorld testSt1).2.2).length ≤ 1 ∧
    (wheelEvents (V2.scrollToElement 2 {} testWorld testSt2).2.2).length ≤ 1 :=
  ⟨c7_in_viewport_micro_only.1 2 {} scrollWorld testSt1 (by with_unfolding_all decide),
   c7_in_viewport_micro_only.2 2 {} testWorld testSt2 (by with_unfolding_all decide)⟩

theorem clamp_mem_le (q lo hi : ℚ) (h : lo ≤ hi) :
    lo ≤ clamp q lo hi ∧ clamp q lo hi ≤ hi :=
  ⟨le_max_left _ _, max_le h (min_le_right _ _)⟩

theorem clampPt_PtIn1 (vp : Viewport) (hw : 1 ≤ vp.width) (hh : 1 ≤ vp.height) (p : Pt) :
    PtIn1 vp (V1.clampPt vp p) := by
  have hx := clamp_mem_le p.x 0 (vp.width - 1) (by linarith)
  have hy := clamp_mem_le p.y 0 (vp.height - 1) (by linarith)
  exact ⟨hx.1, hx.2, hy.1, hy.2⟩

theorem clampPt_PtIn2 (vp : Viewport) (hw : 0 ≤ vp.width) (hh : 0 ≤ vp.height) (p : Pt) :
    PtIn2 vp (V2.clampPt vp p) := by
  have hx := clamp_mem_le p.x 0 vp.width hw
  have hy := clamp_mem_le p.y 0 vp.height hh
  exact ⟨hx.1, hx.2, hy.1, hy.2⟩

theorem humanPointsLoop_inB {vp : Viewport} (hw : 1 ≤ vp.width) (hh : 1 ≤ vp.height)
    {np D j : ℚ} {ctrl : V1.Ctrl} :
    ∀ {n i : ℕ} {acc : List Pt} {w : World} {s : V1.St} {p : Pt},
      (∀ q ∈ acc, PtIn1 vp q) →
      p ∈ ((V1.humanPointsLoop vp np D j ctrl i n acc) w s).1 → PtIn1 vp p := by
  intro n
  induction n with
  | zero =>
    intro i acc w s p hacc hp
    simp only [V1.humanPointsLoop, M.run_pure] at hp
    exact hacc p hp
  | succ k ih =>
    intro i acc w s p hacc hp
    simp only [V1.humanPointsLoop, M.run_bind] at hp
    refine ih ?_ hp
    intro q hq
    rcases List.mem_append.mp hq with h1 | h2
    · exact hacc q h1
    · rw [List.mem_singleton.mp h2]
      exact clampPt_PtIn1 vp hw hh _

theorem correctionLoop_inB_v1 {vp : Viewport} (hw : 1 ≤ vp.width) (hh : 1 ≤ vp.height)
    {cD cN j : ℚ} {ctrl : V1.Ctrl} :
    ∀ {n i : ℕ} {acc : List Pt} {w : World} {s : V1.St} {p : Pt},
      (∀ q ∈ acc, PtIn1 vp q) →
      p ∈ ((V1.correctionLoop vp cD cN j ctrl i n acc) w s).1 → PtIn1 vp p := by
  intro n
  induction n with
  | zero =>
    intro i acc w s p hacc hp
    simp only [V1.correctionLoop, M.run_pure] at hp
    exact hacc p hp
  | succ k ih =>
    intro i acc w s p hacc hp
    simp only [V1.correctionLoop, M.run_bind] at hp
    refine ih ?_ hp
    intro q hq
    rcases List.mem_append.mp hq with h1 | h2
    · exact hacc q h1
    · rw [List.mem_singleton.mp h2]
      exact clampPt_PtIn1 vp hw hh _

theorem correctionPath_inB_v1 {ox oy tx ty : ℚ} {vp : Viewport} {opts : Opts}
    {w : World} {s : V1.St} {p : Pt} (hw : 1 ≤ vp.width) (hh : 1 ≤ vp.height)
    (hp : p ∈ ((V1.generateRealisticCorrectionPath ox oy tx ty vp opts) w s).1) :
    PtIn1 vp p := by
  simp only [V1.generateRealisticCorrectionPath, M.run_bind] at hp
  exact correctionLoop_inB_v1 hw hh (fun q hq => absurd hq (List.not_mem_nil q)) hp

set_option maxHeartbeats 1000000 in
theorem hOv_points_inB_v1 {n : ℕ}
    (hcalc : ∀ {sx sy tx ty : ℚ} {box : Option BBox} {vp : Viewport} {opts : Opts}
      {w : World} {s : V1.St} {p : Pt}, 1 ≤ vp.width → 1 ≤ vp.height →
      p ∈ ((V1.calculateHumanBezierPoints n sx sy tx ty box vp opts) w s).1.points →
      PtIn1 vp p)
    {sx sy tx ty : ℚ} {box : Option BBox} {vp : Viewport} {pts : List Pt} {opts : Opts}
    {D W : ℚ} {w : World} {s : V1.St} {p : Pt}
    (hw : 1 ≤ vp.width) (hh : 1 ≤ vp.height) (hpts : ∀ q ∈ pts, PtIn1 vp q)
    (hp : p ∈ ((V1.handleRealisticOvershoot n sx sy tx ty box vp pts opts D W) w s).1.points) :
    PtIn1 vp p := by
  simp only [V1.handleRealisticOvershoot, V1.handleRealisticOvershootGo, M.run_bind] at hp
  split at hp
  · simp only [M.run_bind] at hp
    split at hp
    · simp only [M.run_bind, M.run_pure] at hp
      rcases List.mem_append.mp hp with h1 | h2
      · exact hcalc hw hh h1
      · exact correctionPath_inB_v1 hw hh h2
    · simp only [M.run_pure] at hp
      exact hpts p hp
  · simp only [M.run_pure] at hp
    exact hpts p hp

set_option maxHeartbeats 1000000 in
theorem calc_points_inB_v1 :
    ∀ (fuel : ℕ) {sx sy tx ty : ℚ} {box : Option BBox} {vp : Viewport} {opts : Opts}
      {w : World} {s : V1.St} {p : Pt}, 1 ≤ vp.width → 1 ≤ vp.height →
      p ∈ ((V1.calculateHumanBezierPoints fuel sx sy tx ty box vp opts) w s).1.points →
      PtIn1 vp p := by
  intro fuel
  induction fuel with
  | zero =>
    intro sx sy tx ty box vp opts w s p hw hh hp
    simp only [V1.calculateHumanBezierPoints.eq_def, M.run_bind] at hp
    split at hp <;>
      (simp only [M.run_bind, M.run_pure] at hp;
       exact humanPointsLoop_inB hw hh (fun r hr => absurd hr (List.not_mem_nil r)) hp)
  | succ n ih =>
    intro sx sy tx ty box vp opts w s p hw hh hp
    simp only [V1.calculateHumanBezierPoints.eq_def, M.run_bind] at hp
    split at hp <;>
      (simp only [M.run_bind, M.run_pure] at hp;
       exact hOv_points_inB_v1 (fun hw2 hh2 hp2 => ih hw2 hh2 hp2) hw hh
         (fun q hq => humanPointsLoop_inB hw hh
           (fun r hr => absurd hr (List.not_mem_nil r)) hq) hp)

theorem bezierLoop_inB {vp : Viewport} (hw : 0 ≤ vp.width) (hh : 0 ≤ vp.height)
    {np D j : ℚ} {ctrl : V2.Ctrl} :
    ∀ {n i : ℕ} {acc : List Pt} {w : World} {s : V2.St} {p : Pt},
      (∀ q ∈ acc, PtIn2 vp q) →
      p ∈ ((V2.bezierLoop vp np D j ctrl i n acc) w s).1 → PtIn2 vp p := by
  intro n
  induction n with
  | zero =>
    intro i acc w s p hacc hp
    simp only [V2.bezierLoop, M.run_pure] at hp
    exact hacc p hp
  | succ k ih =>
    intro i acc w s p hacc hp
    simp only [V2.bezierLoop, M.run_bind] at hp
    refine ih ?_ hp
    intro q hq
    rcases List.mem_append.mp hq with h1 | h2
    · exact hacc q h1
    · rw [List.mem_singleton.mp h2]
      exact clampPt_PtIn2 vp hw hh _

theorem correctionLoop_inB_v2 {vp : Viewport} (hw : 0 ≤ vp.width) (hh : 0 ≤ vp.height)
    {cN j : ℚ} {ctrl : V2.Ctrl} :
    ∀ {n i : ℕ} {acc : List Pt} {w : World} {s : V2.St} {p : Pt},
      (∀ q ∈ acc, PtIn2 vp q) →
      p ∈ ((V2.correctionLoop vp cN j ctrl i n acc) w s).1 → PtIn2 vp p := by
  intro n
  induction n with
  | zero =>
    intro i acc w s p hacc hp
    simp only [V2.correctionLoop, M.run_pure] at hp
    exact hacc p hp
  | succ k ih =>
    intro i acc w s p hacc hp
    simp only [V2.correctionLoop, M.run_bind] at hp
    refine ih ?_ hp
    intro q hq
    rcases List.mem_append.mp hq with h1 | h2
    · exact hacc q h1
    · rw [List.mem_singleton.mp h2]
      exact clampPt_PtIn2 vp hw hh _

theorem correctionPath_inB_v2 {ox oy tx ty : ℚ} {vp : Viewport} {opts : Opts}
    {w : World} {s : V2.St} {p : Pt} (hw : 0 ≤ vp.width) (hh : 0 ≤ vp.height)
    (hp : p ∈ ((V2.generateCorrectionPath ox oy tx ty vp opts) w s).1) :
    PtIn2 vp p := by
  simp only [V2.generateCorrectionPath, M.run_bind] at hp
  exact correctionLoop_inB_v2 hw hh (fun q hq => absurd hq (List.not_mem_nil q)) hp

set_option maxHeartbeats 1000000 in
theorem hOv_points_inB_v2 {n : ℕ}
    (hcalc : ∀ {sx sy tx ty : ℚ} {box : Option BBox} {vp : Viewport} {opts : Opts}
      {w : World} {s : V2.St} {p : Pt}, 0 ≤ vp.width → 0 ≤ vp.height →
      p ∈ ((V2.calculateBezierPoints n sx sy tx ty box vp opts) w s).1.points →
      PtIn2 vp p)
    {sx sy tx ty : ℚ} {box : Option BBox} {vp : Viewport} {pts : List Pt} {opts : Opts}
    {D W : ℚ} {w : World} {s : V2.St} {p : Pt}
    (hw : 0 ≤ vp.width) (hh : 0 ≤ vp.height) (hpts : ∀ q ∈ pts, PtIn2 vp q)
    (hp : p ∈ ((V2.handleOvershoot n sx sy tx ty box vp pts opts D W) w s).1.points) :
    PtIn2 vp p := by
  simp only [V2.handleOvershoot, V2.handleOvershootGo, M.run_bind] at hp
  split at hp
  · simp only [M.run_bind] at hp
    split at hp
    · simp only [M.run_bind, M.run_pure] at hp
      rcases List.mem_append.mp hp with h1 | h2
      · exact hcalc hw hh h1
      · exact correctionPath_inB_v2 hw hh h2
    · simp only [M.run_pure] at hp
      exact hpts p hp
  · simp only [M.run_pure] at hp
    exact hpts p hp

set_option maxHeartbeats 1000000 in
theorem calc_points_inB_v2 :
    ∀ (fuel : ℕ) {sx sy tx ty : ℚ} {box : Option BBox} {vp : Viewport} {opts : Opts}
      {w : World} {s : V2.St} {p : Pt}, 0 ≤ vp.width → 0 ≤ vp.height →
      p ∈ ((V2.calculateBezierPoints fuel sx sy tx ty box vp opts) w s).1.points →
      PtIn2 vp p := by
  intro fuel
  induction fuel with
  | zero =>
    intro sx sy tx ty box vp opts w s p hw hh hp
    simp only [V2.calculateBezierPoints.eq_def, M.run_bind, M.run_pure] at hp
    exact bezierLoop_inB hw hh (fun r hr => absurd hr (List.not_mem_nil r)) hp
  | succ n ih =>
    intro sx sy tx ty box vp opts w s p hw hh hp
    simp only [V2.calculateBezierPoints.eq_def, M.run_bind] at hp
    exact hOv_points_inB_v2 (fun hw2 hh2 hp2 => ih hw2 hh2 hp2) hw hh
      (fun q hq => bezierLoop_inB hw hh
        (fun r hr => absurd hr (List.not_mem_nil r)) hq) hp

theorem tr_gauss_v1 (a b : ℚ) (w : World) (s : V1.St) :
    ((V1.randomGaussian a b) w s).2.2 = [] := rfl

theorem tr_applyFatigue_v1 (v : ℚ) (w : World) (s : V1.St) :
    ((V1.applyFatigue v) w s).2.2 = [] := rfl

theorem tr_ctrl_v1 (sx sy tx ty D : ℚ) (opts : Opts) (w : World) (s : V1.St) :
    ((V1.calculateRealisticControlPoints sx sy tx ty D opts) w s).2.2 = [] := rfl

theorem tr_initPosition_v1 (vp : Viewport) (w : World) (s : V1.St) :
    ((V1.initPosition vp) w s).2.2 = [] := rfl

theorem tr_addToHistory_v1 (p : Pt) (w : World) (s : V1.St) :
    ((V1.addToHistory p) w s).2.2 = [] := rfl

theorem tr_mle_v1 (t d : ℚ) (w : World) (s : V1.St) :
    ((V1.multiLayerEasing t d) w s).2.2 = [] := by
  simp only [V1.multiLayerEasing, M.run_bind, M.run_pure, V1.getEnv, V1.getCfg, V1.draw,
    List.nil_append]
  repeat'
    first
      | rfl
      | split
      | simp only [M.run_bind, M.run_pure, V1.draw, List.nil_append]

theorem tr_polling_v1 (ph : ℚ) (w : World) (s : V1.St) :
    ((V1.calculateRealisticPollingDelay ph) w s).2.2 = [] := by
  simp only [V1.calculateRealisticPollingDelay, M.run_bind, M.run_pure, V1.getCfg, V1.draw,
    List.nil_append]
  repeat'
    first
      | rfl
      | split
      | simp only [M.run_bind, M.run_pure, V1.draw, List.nil_append]

theorem tr_draw_v1 (w : World) (s : V1.St) : ((V1.draw) w s).2.2 = [] := rfl

theorem tr_query_v1 {β : Type} (f : PageO → ℕ → β) (w : World) (s : V1.St) :
    ((V1.query f) w s).2.2 = [] := rfl

theorem tr_microCorrectionStep (env : MathEnv) (c : V1.Config) (linearT : ℚ) (p0 : Pt)
    (r1 : ℚ) (w : World) (s : V1.St) :
    ((V1.microCorrectionStep env c linearT p0 r1) w s).2.2 = [] := by
  simp only [V1.microCorrectionStep]
  split <;> rfl

theorem tr_attentionErrorStep (c : V1.Config) (p2 : Pt) (w : World) (s : V1.St) :
    ((V1.attentionErrorStep c p2) w s).2.2 = [] := by
  simp only [V1.attentionErrorStep]
  split
  · simp only [M.run_bind, M.run_pure, tr_draw_v1, tr_gauss_v1, List.nil_append]
    split <;> rfl
  · rfl

theorem tr_subMovementStep (c : V1.Config) (linearT : ℚ) (p3 : Pt) (w : World)
    (s : V1.St) :
    ((V1.subMovementStep c linearT p3) w s).2.2 = [] := by
  simp only [V1.subMovementStep]
  split
  · simp only [M.run_bind, M.run_pure, tr_draw_v1, tr_gauss_v1, List.nil_append]
    split <;> rfl
  · rfl

theorem tr_angularVariationStep (env : MathEnv) (i : ℕ) (prevPt : Option Pt) (p4 : Pt)
    (w : World) (s : V1.St) :
    ((V1.angularVariationStep env i prevPt p4) w s).2.2 = [] := by
  cases prevPt <;>
    (simp only [V1.angularVariationStep]
     split
     · simp only [M.run_bind, M.run_pure, tr_draw_v1, tr_gauss_v1, List.nil_append]
       split <;> rfl
     · rfl)

theorem tr_stepRaw_v1 (np D j : ℚ) (ctrl : V1.Ctrl) (i : ℕ) (prev : Option Pt)
    (w : World) (s : V1.St) :
    ((V1.humanPointStepRaw np D j ctrl i prev) w s).2.2 = [] := by
  simp only [V1.humanPointStepRaw, M.run_bind, M.run_pure, V1.getEnv, V1.getCfg,
    tr_draw_v1, tr_mle_v1, tr_gauss_v1, tr_microCorrectionStep, tr_attentionErrorStep,
    tr_subMovementStep, tr_angularVariationStep, List.nil_append, List.append_nil]

theorem tr_step_v1 (vp : Viewport) (np D j : ℚ) (ctrl : V1.Ctrl) (i : ℕ) (prev : Option Pt)
    (w : World) (s : V1.St) :
    ((V1.humanPointStep vp np D j ctrl i prev) w s).2.2 = [] := by
  simp [V1.humanPointStep, M.run_bind, M.run_pure, tr_stepRaw_v1]

theorem tr_humanPointsLoop_v1 (vp : Viewport) (np D j : ℚ) (ctrl : V1.Ctrl) :
    ∀ (n i : ℕ) (acc : List Pt) (w : World) (s : V1.St),
      ((V1.humanPointsLoop vp np D j ctrl i n acc) w s).2.2 = [] := by
  intro n
  induction n with
  | zero => intro i acc w s; rfl
  | succ k ih =>
    intro i acc w s
    simp [V1.humanPointsLoop, M.run_bind, tr_step_v1, ih]

theorem tr_correctionLoop_v1 (vp : Viewport) (cD cN j : ℚ) (ctrl : V1.Ctrl) :
    ∀ (n i : ℕ) (acc : List Pt) (w : World) (s : V1.St),
      ((V1.correctionLoop vp cD cN j ctrl i n acc) w s).2.2 = [] := by
  intro n
  induction n with
  | zero => intro i acc w s; rfl
  | succ k ih =>
    intro i acc w s
    simp [V1.correctionLoop, M.run_bind, tr_mle_v1, tr_gauss_v1, ih]

theorem tr_correctionPath_v1 (ox oy tx ty : ℚ) (vp : Viewport) (opts : Opts)
    (w : World) (s : V1.St) :
    ((V1.generateRealisticCorrectionPath ox oy tx ty vp opts) w s).2.2 = [] := by
  simp [V1.generateRealisticCorrectionPath, M.run_bind, V1.getEnv, V1.getCfg, V1.draw,
    tr_correctionLoop_v1]

set_option maxHeartbeats 1000000 in
theorem tr_hOv_v1 {n : ℕ}
    (hcalc : ∀ (sx sy tx ty : ℚ) (box : Option BBox) (vp : Viewport) (opts : Opts)
      (w : World) (s : V1.St),
      ((V1.calculateHumanBezierPoints n sx sy tx ty box vp opts) w s).2.2 = [])
    (sx sy tx ty : ℚ) (box : Option BBox) (vp : Viewport) (pts : List Pt) (opts : Opts)
    (D W : ℚ) (w : World) (s : V1.St) :
    ((V1.handleRealisticOvershootGo (V1.calculateHumanBezierPoints n)
        sx sy tx ty box vp pts opts D W) w s).2.2 = [] := by
  simp only [V1.handleRealisticOvershootGo, M.run_bind,
    M.run_pure, V1.getEnv, V1.getCfg, V1.draw, List.nil_append]
  split
  · simp only [M.run_bind, M.run_pure, V1.draw, List.nil_append]
    split
    · simp only [M.run_bind, M.run_pure, V1.draw, hcalc, tr_correctionPath_v1,
        List.nil_append, List.append_nil]
    · rfl
  · rfl

set_option maxHeartbeats 1000000 in
theorem tr_calc_v1 :
    ∀ (fuel : ℕ) (sx sy tx ty : ℚ) (box : Option BBox) (vp : Viewport) (opts : Opts)
      (w : World) (s : V1.St),
      ((V1.calculateHumanBezierPoints fuel sx sy tx ty box vp opts) w s).2.2 = [] := by
  intro fuel
  induction fuel with
  | zero =>
    intro sx sy tx ty box vp opts w s
    simp only [V1.calculateHumanBezierPoints.eq_def, M.run_bind, M.run_pure, V1.getEnv,
      V1.getCfg, tr_applyFatigue_v1, tr_ctrl_v1, tr_gauss_v1, tr_humanPointsLoop_v1,
      List.nil_append, List.append_nil]
    split <;>
      (simp only [M.run_bind, M.run_pure, V1.getCfg, tr_gauss_v1, tr_humanPointsLoop_v1,
         List.nil_append, List.append_nil] <;> rfl)
  | succ n ih =>
    intro sx sy tx ty box vp opts w s
    have hOvTr := tr_hOv_v1 ih
    simp only [V1.calculateHumanBezierPoints.eq_def, M.run_bind, M.run_pure, V1.getEnv,
      V1.getCfg, tr_applyFatigue_v1, tr_ctrl_v1, tr_gauss_v1, tr_humanPointsLoop_v1,
      List.nil_append, List.append_nil]
    split <;>
      (simp only [M.run_bind, M.run_pure, V1.getCfg, tr_gauss_v1, tr_humanPointsLoop_v1,
         hOvTr, List.nil_append, List.append_nil] <;> rfl)

theorem moveEvents_randomDelay_v1 (lo hi : ℚ) (w : World) (s : V1.St) :
    moveEvents ((V1.randomDelay lo hi) w s).2.2 = [] := by
  simp [V1.randomDelay, M.run_bind, M.run_pure, V1.draw, V1.emit, V1.passTime, moveEvents]

theorem moveEvents_getViewportLoop_v1 (n : ℕ) (nowT : ℚ) (w : World) (s : V1.St) :
    moveEvents ((V1.getViewportLoop n nowT) w s).2.2 = [] := by
  induction n generalizing s with
  | zero => rfl
  | succ k ih =>
    simp only [V1.getViewportLoop, M.run_bind, V1.query, V1.modifyS, M.run_pure,
      List.nil_append]
    cases hr : w.page.viewport s.q <;>
      repeat'
        first
          | rfl
          | split
          | simp only [M.run_bind, moveEvents_append, moveEvents_randomDelay_v1, ih, M.run_pure,
              List.nil_append, List.append_nil]

theorem moveEvents_getViewport_v1 (w : World) (s : V1.St) :
    moveEvents ((V1.getViewport) w s).2.2 = [] := by
  simp only [V1.getViewport, M.run_bind, V1.timeNow, V1.getS, M.run_pure, List.nil_append]
  cases hv : s.cachedViewport with
  | some v =>
    split
    · rfl
    · exact moveEvents_getViewportLoop_v1 _ _ _ _
  | none => exact moveEvents_getViewportLoop_v1 _ _ _ _

theorem movePointsStep_moves_v1 {vp : Viewport} (hw : 1 ≤ vp.width) (hh : 1 ≤ vp.height)
    {len : ℕ} {td : Option Pt} {i : ℕ} {p : Pt} {w : World} {s : V1.St} {q : ℚ × ℚ}
    (hq : q ∈ moveEvents ((V1.movePointsStep vp len td i p) w s).2.2) :
    0 ≤ q.1 ∧ q.1 ≤ vp.width - 1 ∧ 0 ≤ q.2 ∧ q.2 ≤ vp.height - 1 := by
  cases td <;>
    (simp only [V1.movePointsStep, M.run_bind, M.run_pure, tr_query_v1, V1.getCfg,
       tr_draw_v1, V1.emit, tr_polling_v1, tr_gauss_v1, moveEvents_randomDelay_v1,
       moveEvents_append, moveEvents, List.nil_append, List.append_nil] at hq
     repeat'
       first
         | (split at hq)
         | (simp only [M.run_bind, M.run_pure, tr_query_v1, V1.getCfg, tr_draw_v1,
             V1.emit, tr_polling_v1, tr_gauss_v1, moveEvents_randomDelay_v1,
             moveEvents_append, moveEvents, List.nil_append, List.append_nil,
             List.mem_singleton, List.not_mem_nil] at hq))
  all_goals
    (rw [hq]
     exact ⟨(clamp_mem_le _ 0 (vp.width - 1) (by linarith)).1,
            (clamp_mem_le _ 0 (vp.width - 1) (by linarith)).2,
            (clamp_mem_le _ 0 (vp.height - 1) (by linarith)).1,
            (clamp_mem_le _ 0 (vp.height - 1) (by linarith)).2⟩)

theorem movePointsLoop_moves_v1 {vp : Viewport} (hw : 1 ≤ vp.width) (hh : 1 ≤ vp.height)
    {len : ℕ} {td : Option Pt} :
    ∀ (pts : List Pt) (i : ℕ) (w : World) (s : V1.St) {q : ℚ × ℚ},
      q ∈ moveEvents ((V1.movePointsLoop vp len td i pts) w s).2.2 →
      0 ≤ q.1 ∧ q.1 ≤ vp.width - 1 ∧ 0 ≤ q.2 ∧ q.2 ≤ vp.height - 1 := by
  intro pts
  induction pts with
  | nil => intro i w s q hq; simp [V1.movePointsLoop, M.run_pure, moveEvents] at hq
  | cons p rest ih =>
    intro i w s q hq
    simp only [V1.movePointsLoop, M.run_bind, moveEvents_append] at hq
    rcases List.mem_append.mp hq with h1 | h2
    · exact movePointsStep_moves_v1 hw hh h1
    · exact ih _ _ _ h2

theorem moveTo_moves_inB_v1 (fuel : ℕ) (tx ty : ℚ) (opts : Opts) (w : World) (s : V1.St)
    (hw : 1 ≤ (V1.getViewport w s).1.width) (hh : 1 ≤ (V1.getViewport w s).1.height)
    {q : ℚ × ℚ} (hq : q ∈ moveEvents ((V1.moveToPosition fuel tx ty opts) w s).2.2) :
    0 ≤ q.1 ∧ q.1 ≤ (V1.getViewport w s).1.width - 1 ∧
    0 ≤ q.2 ∧ q.2 ≤ (V1.getViewport w s).1.height - 1 := by
  simp only [V1.moveToPosition, M.run_bind, M.run_pure, moveEvents_append,
    moveEvents_getViewport_v1, V1.getS, V1.timeNow, V1.modifyS, tr_calc_v1,
    tr_initPosition_v1, tr_addToHistory_v1, moveEvents, List.nil_append,
    List.append_nil] at hq
  split at hq <;>
    (simp only [M.run_bind, M.run_pure, V1.getS, V1.timeNow, V1.modifyS, tr_calc_v1,
       tr_initPosition_v1, tr_addToHistory_v1, moveEvents_append, moveEvents,
       List.nil_append, List.append_nil] at hq;
     exact movePointsLoop_moves_v1 hw hh _ _ _ _ hq)

/-- C2 (amended): every generated sample is clamped, but the ranges differ
    between the revisions: the first clamps to [0,w-1] x [0,h-1] (both the
    trajectory points, including overshoot and correction, and every emitted
    move event), while the second clamps to [0,w] x [0,h], so x = w is
    reachable there (see the counterexample). -/
theorem c2_sample_bounds :
    (∀ (fuel : ℕ) (sx sy tx ty : ℚ) (box : Option BBox) (vp : Viewport) (opts : Opts)
        (w : World) (s : V1.St) (p : Pt), 1 ≤ vp.width → 1 ≤ vp.height →
      p ∈ ((V1.calculateHumanBezierPoints fuel sx sy tx ty box vp opts) w s).1.points →
      PtIn1 vp p) ∧
    (∀ (fuel : ℕ) (tx ty : ℚ) (opts : Opts) (w : World) (s : V1.St) (q : ℚ × ℚ),
      1 ≤ (V1.getViewport w s).1.width → 1 ≤ (V1.getViewport w s).1.height →
      q ∈ moveEvents ((V1.moveToPosition fuel tx ty opts) w s).2.2 →
      0 ≤ q.1 ∧ q.1 ≤ (V1.getViewport w s).1.width - 1 ∧
      0 ≤ q.2 ∧ q.2 ≤ (V1.getViewport w s).1.height - 1) ∧
    (∀ (fuel : ℕ) (sx sy tx ty : ℚ) (box : Option BBox) (vp : Viewport) (opts : Opts)
        (w : World) (s : V2.St) (p : Pt), 0 ≤ vp.width → 0 ≤ vp.height →
      p ∈ ((V2.calculateBezierPoints fuel sx sy tx ty box vp opts) w s).1.points →
      PtIn2 vp p) :=
  ⟨fun fuel _ _ _ _ _ _ _ _ _ _ hw hh hp => calc_points_inB_v1 fuel hw hh hp,
   fun fuel tx ty opts w s _ hw hh hq => moveTo_moves_inB_v1 fuel tx ty opts w s hw hh hq,
   fun fuel _ _ _ _ _ _ _ _ _ _ hw hh hp => calc_points_inB_v2 fuel hw hh hp⟩

set_option maxRecDepth 40000 in
/-- C2, counterexample to the claim as stated: in the second revision the
    clamp range is [0,w] x [0,h], not [0,w-1] x [0,h-1]; a one-point path to
    x = 99.5 in a width-100 viewport keeps the sample at 99.5 > 99. -/
theorem c2_counterexample :
    (1 : ℚ) ≤ 100 ∧ (1 : ℚ) ≤ 100 ∧
    ¬(∀ p ∈ (V2.calculateBezierPoints 2 50 50 (199 / 2) 50 none ⟨100, 100, 0, 0, 0, 0⟩
        { numPoints := some 1 } testWorld (V2.initSt (2 / 3))).1.points,
      p.x ≤ 100 - 1) := by
  with_unfolding_all decide

set_option maxRecDepth 100000 in
/-- C2, witness: the amended theorem applied to the first point of a concrete
    one-point trajectory of each revision and to the first emitted move event
    of a concrete move. -/
theorem c2_witness :
    PtIn1 ⟨1000, 1000, 0, 0, 2000, 2000⟩
      (((V1.calculateHumanBezierPoints 0 0 0 0 0 none ⟨1000, 1000, 0, 0, 2000, 2000⟩
          { numPoints := some 1 } testWorld testSt1).1.points).headD ⟨0, 0⟩) ∧
    (0 ≤ ((moveEvents ((V1.moveToPosition 0 0 0 { numPoints := some 1 })
            testWorld { testSt1 with lastPos := some ⟨0, 0⟩ }).2.2).headD (0, 0)).1 ∧
     ((moveEvents ((V1.moveToPosition 0 0 0 { numPoints := some 1 })
            testWorld { testSt1 with lastPos := some ⟨0, 0⟩ }).2.2).headD (0, 0)).1 ≤
        (V1.getViewport testWorld { testSt1 with lastPos := some ⟨0, 0⟩ }).1.width - 1 ∧
     0 ≤ ((moveEvents ((V1.moveToPosition 0 0 0 { numPoints := some 1 })
            testWorld { testSt1 with lastPos := some ⟨0, 0⟩ }).2.2).headD (0, 0)).2 ∧
     ((moveEvents ((V1.moveToPosition 0 0 0 { numPoints := some 1 })
            testWorld { testSt1 with lastPos := some ⟨0, 0⟩ }).2.2).headD (0, 0)).2 ≤
        (V1.getViewport testWorld { testSt1 with lastPos := some ⟨0, 0⟩ }).1.height - 1) ∧
    PtIn2 ⟨800, 600, 0, 0, 0, 0⟩
      (((V2.calculateBezierPoints 0 60 60 100 100 none ⟨800, 600, 0, 0, 0, 0⟩
          { numPoints := some 1 } testWorld testSt2).1.points).headD ⟨0, 0⟩) :=
  ⟨c2_sample_bounds.1 0 0 0 0 0 none ⟨1000, 1000, 0, 0, 2000, 2000⟩
      { numPoints := some 1 } testWorld testSt1 _ (by norm_num) (by norm_num)
      (by with_unfolding_all decide),
   c2_sample_bounds.2.1 0 0 0 { numPoints := some 1 } testWorld
      { testSt1 with lastPos := some ⟨0, 0⟩ } _
      (by with_unfolding_all decide) (by with_unfolding_all decide)
      (by with_unfolding_all decide),
   c2_sample_bounds.2.2 0 60 60 100 100 none ⟨800, 600, 0, 0, 0, 0⟩
      { numPoints := some 1 } testWorld testSt2 _ (by norm_num) (by norm_num)
      (by with_unfolding_all decide)⟩
